import Mathlib

/-!
# ark-go delegate pool server: gateway bootstrap

A verification development for `cmd/arkgoserver/arkgo-server.go`: the layered
configuration resolution of `loadConfig`, the CORS middleware, the route table
composed by `initializeRoutes` and the listener address computed in `main`.

The HTTP framework (gin), the configuration library (viper) and the `api`
package are not part of the file; the operations of gin and viper that the file
calls are given here as small state-passing definitions, and the behaviour of the
`api` handlers is a parameter of the statements.
-/

set_option autoImplicit false

namespace ArkGoServer

/-! ## Handlers named in the source -/

/-- The handler values that `main` and `initializeRoutes` put into handler
chains, by the name they have in the source.  `Logger` and `Recovery` are the two
middlewares of `gin.Default()`; `StaticServe` is
`static.Serve("/", static.LocalFile("./public", true))`. -/
inductive Handler where
  | Logger
  | Recovery
  | CORSMiddleware
  | CheckServiceModelHandler
  | OnlyLocalCallAllowed
  | GetVotersPendingRewards
  | GetBlocked
  | GetVotersList
  | GetDelegate
  | GetDelegateSharingConfig
  | GetDelegatePaymentRecord
  | GetDelegatePaymentRecordDetails
  | GetDelegateNodeStatus
  | EnterServiceMode
  | LeaveServiceMode
  | GetArkNewsFromAddress
  | GetDelegateSocialData
  | SendDARK
  | StaticServe
  deriving DecidableEq, Repr

/-! ## Paths (`path.Join`, gin `joinPaths`) -/

/-- Split a path at every slash. -/
def splitSlash : List Char → List (List Char)
  | [] => [[]]
  | c :: cs =>
    match splitSlash cs with
    | [] => [[]]
    | w :: ws => if c = '/' then [] :: w :: ws else (c :: w) :: ws

/-- One pass of `path.Clean` over the elements of a path, `acc` holding the
elements kept so far, last one first: empty and `.` elements are dropped, `..`
removes the element before it, is dropped at the root and kept at the start of a
relative path. -/
def cleanElems (rooted : Bool) : List (List Char) → List (List Char) → List (List Char)
  | [], acc => acc.reverse
  | e :: es, acc =>
    if e = [] ∨ e = ['.'] then cleanElems rooted es acc
    else if e = ['.', '.'] then
      match acc with
      | [] => if rooted then cleanElems rooted es [] else cleanElems rooted es [e]
      | a :: as =>
        if a = ['.', '.'] then cleanElems rooted es (e :: a :: as)
        else cleanElems rooted es as
    else cleanElems rooted es (e :: acc)

/-- Go `path.Clean`. -/
def pathClean (p : String) : String :=
  if p.data = [] then "."
  else
    let rooted := p.data.head? = some '/'
    let body := String.mk (List.intercalate ['/'] (cleanElems rooted (splitSlash p.data) []))
    if rooted then "/" ++ body
    else if body.data = [] then "." else body

/-- Go `path.Join` of two elements: empty elements are ignored, the rest is
joined by a slash and cleaned. -/
def pathJoin (a b : String) : String :=
  if a.data = [] ∧ b.data = [] then ""
  else if a.data = [] then pathClean b
  else if b.data = [] then pathClean a
  else pathClean (a ++ "/" ++ b)

/-- The `joinPaths` of gin. -/
def joinPaths (absolutePath relativePath : String) : String :=
  if relativePath.data = [] then absolutePath
  else
    let finalPath := pathJoin absolutePath relativePath
    let appendSlash := relativePath.data.getLast? = some '/' ∧ finalPath.data.getLast? ≠ some '/'
    if appendSlash then finalPath ++ "/" else finalPath

/-! ## gin: router groups and the route table -/

/-- The `RouterGroup` of gin: the handlers a group prepends to its routes, and its
base path. -/
structure RouterGroup where
  Handlers : List Handler
  basePath : String
  deriving DecidableEq, Repr

/-- One registered route: method, absolute path and the complete handler chain. -/
structure RouteInfo where
  Method : String
  Path : String
  Handlers : List Handler
  deriving DecidableEq, Repr

/-- The `Engine` of gin, as far as `initializeRoutes` changes it: the root group,
the registered routes in registration order, and the chain run when no route
matches (`allNoRoute`). -/
structure Engine where
  RouterGroup : RouterGroup
  routes : List RouteInfo
  allNoRoute : List Handler
  deriving DecidableEq, Repr

/-- The gin `Engine.Use`: the middleware is appended to the root group, and the
no-route chain is rebuilt from the root group (the engine has no `NoRoute`
handlers of its own). -/
def Engine.Use (e : Engine) (middleware : List Handler) : Engine :=
  let hs := e.RouterGroup.Handlers ++ middleware
  { e with RouterGroup := { e.RouterGroup with Handlers := hs }, allNoRoute := hs }

/-- The gin `New`. -/
def ginNew : Engine :=
  { RouterGroup := { Handlers := [], basePath := "/" }, routes := [], allNoRoute := [] }

/-- The gin `Default`: a new engine using `Logger()` and `Recovery()`. -/
def ginDefault : Engine :=
  ginNew.Use [Handler.Logger, Handler.Recovery]

/-- The gin `RouterGroup.Group`: the new group starts from a copy of the handlers
the parent has at this moment. -/
def RouterGroup.Group (g : RouterGroup) (relativePath : String) : RouterGroup :=
  { Handlers := g.Handlers, basePath := joinPaths g.basePath relativePath }

/-- The gin `RouterGroup.Use`. -/
def RouterGroup.Use (g : RouterGroup) (middleware : List Handler) : RouterGroup :=
  { g with Handlers := g.Handlers ++ middleware }

/-- The gin `RouterGroup.GET`: registers `handlers` behind the handlers of the
group under the absolute path. -/
def Engine.GET (e : Engine) (g : ArkGoServer.RouterGroup) (relativePath : String) (handler : Handler) :
    Engine :=
  { e with routes := e.routes ++
      [{ Method := "GET", Path := joinPaths g.basePath relativePath,
         Handlers := g.Handlers ++ [handler] }] }

/-- The source `initializeRoutes`; `frontend` is the value of
`viper.GetBool("web.frontend")`. -/
def initializeRoutes (frontend : Bool) (router : Engine) : Engine :=
  let router := router.Use [Handler.CORSMiddleware]
  let peerRoutes := router.RouterGroup.Group "/voters"
  let peerRoutes := peerRoutes.Use [Handler.CheckServiceModelHandler]
  let router := router.GET peerRoutes "/rewards" Handler.GetVotersPendingRewards
  let router := router.GET peerRoutes "/blocked" Handler.GetBlocked
  let router := router.GET peerRoutes "" Handler.GetVotersList
  let deleRoutes := router.RouterGroup.Group "/delegate"
  let deleRoutes := deleRoutes.Use [Handler.CheckServiceModelHandler]
  let router := router.GET deleRoutes "" Handler.GetDelegate
  let router := router.GET deleRoutes "/config" Handler.GetDelegateSharingConfig
  let router := router.GET deleRoutes "/paymentruns" Handler.GetDelegatePaymentRecord
  let router := router.GET deleRoutes "/paymentruns/details" Handler.GetDelegatePaymentRecordDetails
  let router := router.GET deleRoutes "/nodestatus" Handler.GetDelegateNodeStatus
  let serviceRoutes := router.RouterGroup.Group "/service"
  let serviceRoutes := serviceRoutes.Use [Handler.OnlyLocalCallAllowed]
  let router := router.GET serviceRoutes "/start" Handler.EnterServiceMode
  let router := router.GET serviceRoutes "/stop" Handler.LeaveServiceMode
  let socialRoutes := router.RouterGroup.Group "/social"
  let socialRoutes := socialRoutes.Use [Handler.CheckServiceModelHandler]
  let router := router.GET socialRoutes "" Handler.GetArkNewsFromAddress
  let router := router.GET socialRoutes "/info" Handler.GetDelegateSocialData
  let proxyRoutes := router.RouterGroup.Group "/proxy"
  let proxyRoutes := proxyRoutes.Use [Handler.CheckServiceModelHandler]
  let router := router.GET proxyRoutes "/senddark" Handler.SendDARK
  if frontend then router.Use [Handler.StaticServe] else router

/-! ## gin: request context and handler chains -/

/-- The fields of `http.Request` read by the code. -/
structure Request where
  Method : String
  Path : String
  RemoteAddr : String
  deriving DecidableEq, Repr

/-- The gin `Context` with its response writer: the response header, the status
held by the writer, the status put on the wire once the header is written
(`sent`), the number of body bytes written (`size`, `-1` while nothing is
written) and the body. -/
structure Context where
  Request : Request
  header : List (String × String)
  status : Nat
  sent : Option Nat
  size : Int
  body : String
  deriving DecidableEq, Repr

/-- How a handler hands control back: it called `c.Next()` as its last action,
it called `c.Abort()`, or it simply returned. -/
inductive Flow where
  | next
  | abort
  | ret
  deriving DecidableEq, Repr

/-- A gin handler function: the context it leaves and how it hands control back. -/
abbrev HandlerFunc := Context → Context × Flow

/-- The state of a context after gin `reset`, for a new request. -/
def Context.reset (r : ArkGoServer.Request) : Context :=
  { Request := r, header := [], status := 200, sent := none, size := -1, body := "" }

/-- Go `http.Header.Set`: the key gets exactly this value. -/
def Context.HeaderSet (c : Context) (key value : String) : Context :=
  { c with header := (key, value) :: c.header.filter (fun kv => kv.1 ≠ key) }

/-- Go `http.Header.Get`: the value of the key, the empty string when unset. -/
def Context.HeaderGet (c : Context) (key : String) : String :=
  (c.header.lookup key).getD ""

/-- The gin `responseWriter.Written`. -/
def Context.Written (c : Context) : Bool :=
  c.size ≠ -1

/-- The gin `Context.Status`: the writer keeps a positive code. -/
def Context.Status (c : Context) (code : Nat) : Context :=
  if 0 < code ∧ c.status ≠ code then { c with status := code } else c

/-- The gin `WriteHeaderNow`: the first call puts the held status on the wire,
with no body byte. -/
def Context.WriteHeaderNow (c : Context) : Context :=
  if c.Written then c else { c with size := 0, sent := some c.status }

/-- The gin `responseWriter.Write`. -/
def Context.Write (c : Context) (data : String) : Context :=
  let c := c.WriteHeaderNow
  { c with body := c.body ++ data, size := c.size + data.length }

/-- The gin `Context.AbortWithStatus`: `Status`, `WriteHeaderNow`, `Abort`. -/
def Context.AbortWithStatus (c : Context) (code : Nat) : Context × Flow :=
  ((c.Status code).WriteHeaderNow, Flow.abort)

/-- The gin `Context.Next` as the last action of a handler. -/
def Context.Next (c : Context) : Context × Flow :=
  (c, Flow.next)

/-- The source `CORSMiddleware`. -/
def CORSMiddleware : HandlerFunc := fun c =>
  let c := c.HeaderSet "Access-Control-Allow-Origin" "*"
  let c := c.HeaderSet "Access-Control-Max-Age" "86400"
  let c := c.HeaderSet "Access-Control-Allow-Methods" "GET"
  let c := c.HeaderSet "Access-Control-Allow-Headers"
    "Origin, Content-Type, Content-Length, Accept-Encoding, X-CSRF-Token, Authorization"
  let c := c.HeaderSet "Access-Control-Expose-Headers" "Content-Length"
  let c := c.HeaderSet "Access-Control-Allow-Credentials" "true"
  if c.Request.Method = "OPTIONS" then
    c.AbortWithStatus 200
  else
    c.Next

/-- The function behind each handler name.  `Logger` and `Recovery` of gin pass
the request on with `c.Next()` (their log line and panic recovery are outside
the model); `CORSMiddleware` is the source function; the handlers of package
`api` and the static file middleware are given by `api`. -/
def handlerFunc (api : Handler → HandlerFunc) : Handler → HandlerFunc
  | Handler.Logger => fun c => c.Next
  | Handler.Recovery => fun c => c.Next
  | Handler.CORSMiddleware => CORSMiddleware
  | h => api h

/-- The loop of gin `Context.Next` over a handler chain: handlers run in order
until one aborts.  The second component lists the handlers that were invoked. -/
def serveChain (api : Handler → HandlerFunc) : List Handler → Context → Context × List Handler
  | [], c => (c, [])
  | h :: rest, c =>
    match handlerFunc api h c with
    | (c1, Flow.abort) => (c1, [h])
    | (c1, _) =>
      let out := serveChain api rest c1
      (out.1, h :: out.2)

/-- The gin `default404Body`. -/
def default404Body : String := "404 page not found"

/-- The gin `serveError`. -/
def serveError (api : Handler → HandlerFunc) (handlers : List Handler) (code : Nat)
    (defaultMessage : String) (c : Context) : Context × List Handler :=
  let c := { c with status := code }
  let out := serveChain api handlers c
  let c := out.1
  if c.Written then (c, out.2)
  else if c.status = code then
    ((c.HeaderSet "Content-Type" "text/plain").Write defaultMessage, out.2)
  else (c.WriteHeaderNow, out.2)

/-- The gin `handleHTTPRequest` with the engine settings of `gin.New()`: a
registered route of the request method and path runs its chain; a method with
routes but no route for the path may be answered by a redirect (the
trailing-slash and fixed-path redirects of gin, given by `redirect`); everything
else runs the no-route chain under status 404. -/
def Engine.handleHTTPRequest (api : Handler → HandlerFunc)
    (redirect : Engine → Context → Option Context) (e : Engine) (c : Context) :
    Context × List Handler :=
  if e.routes.any (fun r => r.Method = c.Request.Method) then
    match e.routes.find? (fun r => r.Method = c.Request.Method ∧ r.Path = c.Request.Path) with
    | some r =>
      let out := serveChain api r.Handlers c
      (out.1.WriteHeaderNow, out.2)
    | none =>
      match redirect e c with
      | some c1 => (c1, [])
      | none => serveError api e.allNoRoute 404 default404Body c
  else serveError api e.allNoRoute 404 default404Body c

/-- The gin `Engine.ServeHTTP`: a fresh context for the request, then
`handleHTTPRequest`. -/
def Engine.ServeHTTP (api : Handler → HandlerFunc)
    (redirect : Engine → Context → Option Context) (e : Engine) (r : Request) :
    Context × List Handler :=
  e.handleHTTPRequest api redirect (Context.reset r)

/-! ## Service mode -/

/-- The process-wide service mode of the specification. -/
inductive ServiceMode where
  | Active
  | Suspended
  deriving DecidableEq, Repr

/-- Modelled from the spec: the bodies of `api.EnterServiceMode` and
`api.LeaveServiceMode` are not in the source file.  By the glossary, service mode
is the toggle that suspends public read traffic: the handler that enters service
mode leaves the gateway `Suspended`, the handler that leaves service mode leaves
it `Active`, both whatever the mode was; no other handler changes the mode. -/
def serviceModeAfter : Handler → ServiceMode → ServiceMode
  | Handler.EnterServiceMode, _ => ServiceMode.Suspended
  | Handler.LeaveServiceMode, _ => ServiceMode.Active
  | _, m => m

/-- The endpoint handler a method and path are bound to: the last handler of the
chain of the registered route. -/
def Engine.endpoint (e : Engine) (method path : String) : Option Handler :=
  (e.routes.find? (fun r => r.Method = method ∧ r.Path = path)).bind
    (fun r => r.Handlers.getLast?)

/-- The service mode after the endpoint handler bound to `GET path` has run. -/
def Engine.controlTransition (e : Engine) (path : String) (m : ServiceMode) :
    Option ServiceMode :=
  (e.endpoint "GET" path).map (fun h => serviceModeAfter h m)

/-! ## The HTTP surface of the specification -/

/-- The paths the specification lists under the service-availability guard. -/
def gatedPaths : List String :=
  ["/voters/rewards", "/voters/blocked", "/voters", "/delegate", "/delegate/config",
   "/delegate/paymentruns", "/delegate/paymentruns/details", "/delegate/nodestatus",
   "/social", "/social/info", "/proxy/senddark"]

/-- The paths the specification lists under the loopback-only guard. -/
def controlPaths : List String :=
  ["/service/start", "/service/stop"]

/-! ## viper: configuration state -/

/-- A configuration value as a parser hands it to viper: a string, an integer
(of any Go integer type, by its value), a float64 (by its IEEE-754 bit pattern,
`0` being `0.0`), a boolean, or a nested map. -/
inductive Value where
  | str (s : String)
  | int (n : Int)
  | float (bits : Nat)
  | bool (b : Bool)
  | map (entries : List (String × Value))

mutual
/-- Equality of configuration values is decidable. -/
def Value.decEq : (a b : Value) → Decidable (a = b)
  | Value.str s, Value.str t =>
    if h : s = t then isTrue (by rw [h]) else isFalse (fun e => h (by cases e; rfl))
  | Value.int s, Value.int t =>
    if h : s = t then isTrue (by rw [h]) else isFalse (fun e => h (by cases e; rfl))
  | Value.float s, Value.float t =>
    if h : s = t then isTrue (by rw [h]) else isFalse (fun e => h (by cases e; rfl))
  | Value.bool s, Value.bool t =>
    if h : s = t then isTrue (by rw [h]) else isFalse (fun e => h (by cases e; rfl))
  | Value.map s, Value.map t =>
    match Value.decEqEntries s t with
    | isTrue h => isTrue (by rw [h])
    | isFalse h => isFalse (fun e => h (by cases e; rfl))
  | Value.str _, Value.int _ => isFalse nofun
  | Value.str _, Value.float _ => isFalse nofun
  | Value.str _, Value.bool _ => isFalse nofun
  | Value.str _, Value.map _ => isFalse nofun
  | Value.int _, Value.str _ => isFalse nofun
  | Value.int _, Value.float _ => isFalse nofun
  | Value.int _, Value.bool _ => isFalse nofun
  | Value.int _, Value.map _ => isFalse nofun
  | Value.float _, Value.str _ => isFalse nofun
  | Value.float _, Value.int _ => isFalse nofun
  | Value.float _, Value.bool _ => isFalse nofun
  | Value.float _, Value.map _ => isFalse nofun
  | Value.bool _, Value.str _ => isFalse nofun
  | Value.bool _, Value.int _ => isFalse nofun
  | Value.bool _, Value.float _ => isFalse nofun
  | Value.bool _, Value.map _ => isFalse nofun
  | Value.map _, Value.str _ => isFalse nofun
  | Value.map _, Value.int _ => isFalse nofun
  | Value.map _, Value.float _ => isFalse nofun
  | Value.map _, Value.bool _ => isFalse nofun
/-- Equality of the entries of a map is decidable. -/
def Value.decEqEntries : (a b : List (String × Value)) → Decidable (a = b)
  | [], [] => isTrue rfl
  | [], _ :: _ => isFalse nofun
  | _ :: _, [] => isFalse nofun
  | (k, x) :: as, (l, y) :: bs =>
    if hk : k = l then
      match Value.decEq x y with
      | isTrue hx =>
        match Value.decEqEntries as bs with
        | isTrue hr => isTrue (by rw [hk, hx, hr])
        | isFalse hr => isFalse (fun e => hr (by cases e; rfl))
      | isFalse hx => isFalse (fun e => hx (by cases e; rfl))
    else isFalse (fun e => hk (by cases e; rfl))
end

instance : DecidableEq Value := Value.decEq

/-- A configuration map as viper holds it (`map[string]interface{}`): keys folded
to lower case, each with its value, which may itself be a map; a key stands for
its first entry.  A key of the file may also contain the key delimiter. -/
abbrev ConfigMap := List (String × Value)

/-- What a file holds for viper: something that does not parse, or a
configuration map. -/
inductive FileContent where
  | invalid
  | valid (m : ConfigMap)
  deriving DecidableEq

/-- The files under the working directory, by path; `none` where there is no
file. -/
abbrev FileSystem := String → Option FileContent

/-- The error results of `ReadInConfig`. -/
inductive ConfigError where
  | ConfigFileNotFoundError
  | ConfigParseError
  deriving DecidableEq, Repr

/-- What the configuration code did to the file system: a call of
`ReadInConfig` under a configuration name, or an existence test of a candidate
file of that name. -/
inductive Event where
  | load (configName : String)
  | stat (configName : String) (file : String)
  deriving DecidableEq, Repr

/-- The configuration name an event belongs to. -/
def Event.name : Event → String
  | Event.load n => n
  | Event.stat n _ => n

/-- Whether an event is a call of `ReadInConfig`. -/
def Event.isLoad : Event → Bool
  | Event.load _ => true
  | Event.stat _ _ => false

/-- The viper state the program touches: the configuration name, the cached
configuration file, the search paths (relative to the working directory), the
map read from the file, the defaults, and a record of the file-system events. -/
structure Viper where
  configName : String
  configFile : String
  configPaths : List String
  config : ConfigMap
  defaults : ConfigMap
  log : List Event
  deriving DecidableEq

/-- The viper `New`. -/
def viperNew : Viper :=
  { configName := "config", configFile := "", configPaths := [], config := [], defaults := [],
    log := [] }

/-- Go `strings.ToLower` on the letters A to Z. -/
def toLower (s : String) : String :=
  String.mk (s.data.map Char.toLower)

/-- The viper `SetConfigName`: a new name forgets the cached file. -/
def Viper.SetConfigName (v : Viper) (name : String) : Viper :=
  if name ≠ "" then { v with configName := name, configFile := "" } else v

/-- The viper `AddConfigPath`: a path not yet present is appended. -/
def Viper.AddConfigPath (v : Viper) (path : String) : Viper :=
  if path ≠ "" then
    if path ∈ v.configPaths then v else { v with configPaths := v.configPaths ++ [path] }
  else v

/-- The viper `searchInPath`: the first supported extension for which
`dir/configName.ext` exists; the events are the existence tests made. -/
def searchInPath (fs : FileSystem) (configName dir : String) :
    List String → List Event × String
  | [] => ([], "")
  | ext :: exts =>
    let file := pathJoin dir (configName ++ "." ++ ext)
    if (fs file).isSome then ([Event.stat configName file], file)
    else
      let r := searchInPath fs configName dir exts
      (Event.stat configName file :: r.1, r.2)

/-- The viper `findConfigFile`: the first search path with a candidate file. -/
def findConfigFile (fs : FileSystem) (exts : List String) (configName : String) :
    List String → List Event × Option String
  | [] => ([], none)
  | dir :: dirs =>
    let r := searchInPath fs configName dir exts
    if r.2 ≠ "" then (r.1, some r.2)
    else
      let q := findConfigFile fs exts configName dirs
      (r.1 ++ q.1, q.2)

/-- The viper `getConfigFile`: the cached file, or the file found, which is then
cached. -/
def Viper.getConfigFile (fs : FileSystem) (exts : List String) (v : Viper) :
    Viper × Option String :=
  if v.configFile ≠ "" then (v, some v.configFile)
  else
    match findConfigFile fs exts v.configName v.configPaths with
    | (evs, none) => ({ v with log := v.log ++ evs }, none)
    | (evs, some cf) => ({ v with log := v.log ++ evs, configFile := cf }, some cf)

/-- The viper `ReadInConfig`: the configuration file is located, read and parsed;
only a successful parse replaces the configuration map. -/
def Viper.ReadInConfig (fs : FileSystem) (exts : List String) (v : Viper) :
    Viper × Option ConfigError :=
  let v := { v with log := v.log ++ [Event.load v.configName] }
  match v.getConfigFile fs exts with
  | (v, none) => (v, some ConfigError.ConfigFileNotFoundError)
  | (v, some filename) =>
    match fs filename with
    | some (FileContent.valid m) => ({ v with config := m }, none)
    | _ => (v, some ConfigError.ConfigParseError)

/-- Go `strings.Split` at the key delimiter, on the characters of a key. -/
def splitDelim : List Char → List (List Char)
  | [] => [[]]
  | c :: cs =>
    match splitDelim cs with
    | [] => [[]]
    | w :: ws => if c = '.' then [] :: w :: ws else (c :: w) :: ws

/-- The path of a key: `strings.Split(key, v.keyDelim)`. -/
def keyPath (key : String) : List String :=
  (splitDelim key.data).map String.mk

/-- The key of a path: `strings.Join(path, v.keyDelim)`. -/
def joinPath (path : List String) : String :=
  String.mk (List.intercalate ['.'] (path.map String.data))

/-- The viper `searchMap`: each path element is one map key; a value met where a
map is needed means not found. -/
def searchMap : ConfigMap → List String → Option Value
  | source, [] => some (Value.map source)
  | source, k :: ks =>
    match source.lookup k with
    | none => none
    | some next =>
      match ks with
      | [] => some next
      | _ :: _ =>
        match next with
        | Value.map sub => searchMap sub ks
        | _ => none

/-- The loop of viper `searchMapWithPathPrefixes` over the prefixes of the path
`pre ++ rest` that contain `pre`, the longest first: a prefix that is a key of
the map ends the search when it is the whole path, and otherwise sends the
search for the remaining elements into the map found under it. -/
def searchPrefixes (pre : List String) : List String → ConfigMap → Option Value
  | [], source => source.lookup (toLower (joinPath pre))
  | r :: rs, source =>
    match searchPrefixes (pre ++ [r]) rs source with
    | some val => some val
    | none =>
      match source.lookup (toLower (joinPath pre)) with
      | some (Value.map sub) => searchPrefixes [r] rs sub
      | _ => none

/-- The viper `searchMapWithPathPrefixes`. -/
def searchMapWithPathPrefixes (source : ConfigMap) : List String → Option Value
  | [] => some (Value.map source)
  | p :: ps => searchPrefixes [p] ps source

/-- The loop of viper `isPathShadowedInDeepMap` at the proper prefix `pre` of the
path `pre ++ rest`: a prefix not found ends the loop, a map goes on to the next
prefix, any other value shadows the path and its key is returned. -/
def shadowLoop (m : ConfigMap) : List String → List String → String
  | _, [] => ""
  | pre, r :: rs =>
    match searchMap m pre with
    | none => ""
    | some (Value.map _) => shadowLoop m (pre ++ [r]) rs
    | some _ => joinPath pre

/-- The viper `isPathShadowedInDeepMap`: the key of the first proper prefix of
the path that holds a value other than a map, the empty string when there is
none. -/
def isPathShadowedInDeepMap (path : List String) (m : ConfigMap) : String :=
  match path with
  | [] => ""
  | p :: ps => shadowLoop m [p] ps

/-- Go `m[k] = x` on a map. -/
def mapSet (m : ConfigMap) (k : String) (x : Value) : ConfigMap :=
  (k, x) :: m.filter (fun kv => kv.1 ≠ k)

/-- The viper `deepSearch` along `path` followed by the assignment of `lastKey`
in the innermost map: a missing element, or one that holds no map, gets a new
map. -/
def setDeep : ConfigMap → List String → String → Value → ConfigMap
  | m, [], lastKey, x => mapSet m lastKey x
  | m, k :: ks, lastKey, x =>
    match m.lookup k with
    | some (Value.map m3) => mapSet m k (Value.map (setDeep m3 ks lastKey x))
    | _ => mapSet m k (Value.map (setDeep [] ks lastKey x))

/-- The viper `SetDefault`. -/
def Viper.SetDefault (v : Viper) (key : String) (value : Value) : Viper :=
  let key := toLower key
  let path := keyPath key
  let lastKey := toLower (path.getLast?.getD "")
  { v with defaults := setDeep v.defaults path.dropLast lastKey value }

/-- The viper `find`, for the sources the program uses (it calls no `Set`, binds
no flag or environment variable and has no key/value store or alias): the value
of the configuration file; failing that, nothing when a parent of a nested key
holds a value other than a map in the configuration file; failing that, the
default. -/
def Viper.find (v : Viper) (lcaseKey : String) : Option Value :=
  let path := keyPath lcaseKey
  let nested := 1 < path.length
  match searchMapWithPathPrefixes v.config path with
  | some val => some val
  | none =>
    if nested ∧ isPathShadowedInDeepMap path v.config ≠ "" then none
    else searchMap v.defaults path

/-- The viper `Get`. -/
def Viper.Get (v : Viper) (key : String) : Option Value :=
  v.find (toLower key)

/-! ## Typed reads (`cast`) -/

/-- The conversions of package `cast` that are left as parameters: the result
of converting a float64 that is not a number or lies outside the int range
(implementation-dependent in Go), the decimal form of a float64, the truth value
of a float64, the decimal form of an integer outside the signed 64-bit range,
and `strconv.ParseInt`. -/
structure Conv where
  floatOutOfRange : Nat → Int
  floatToString : Nat → String
  floatToBool : Nat → Bool
  bigIntToString : Int → String
  parseInt : String → Option Int

/-- Go `int(x)` for an integer `x` of a 64-bit type: the value modulo `2^64`,
read as a signed 64-bit integer. -/
def toGoInt (n : Int) : Int :=
  (n + 2 ^ 63) % 2 ^ 64 - 2 ^ 63

/-- Go `int(f)` for a float64 given by its bits, where it is defined: the value
truncated toward zero, when it is finite and fits the signed 64-bit range. -/
def float64Trunc (bits : Nat) : Option Int :=
  let negative := bits / 2 ^ 63 % 2 = 1
  let e := bits / 2 ^ 52 % 2048
  let f := bits % 2 ^ 52
  if e = 2047 then none
  else
    let mant : Nat := if e = 0 then f else 2 ^ 52 + f
    let shift : Nat := if e = 0 then 1 else e
    let mag : Nat := if 1075 ≤ shift then mant * 2 ^ (shift - 1075) else mant / 2 ^ (1075 - shift)
    if negative then
      if mag ≤ 2 ^ 63 then some (-(mag : Int)) else none
    else
      if mag < 2 ^ 63 then some (mag : Int) else none

/-- Go `strconv.ParseBool`. -/
def ParseBool (s : String) : Option Bool :=
  if s = "1" ∨ s = "t" ∨ s = "T" ∨ s = "TRUE" ∨ s = "true" ∨ s = "True" then some true
  else if s = "0" ∨ s = "f" ∨ s = "F" ∨ s = "FALSE" ∨ s = "false" ∨ s = "False" then some false
  else none

/-- Go `strconv.Itoa`. -/
def Itoa : Int → String
  | Int.ofNat n => Nat.repr n
  | Int.negSucc n => "-" ++ Nat.repr (n + 1)

/-- The `cast.ToBool` behind `viper.GetBool`; a value it cannot convert gives
`false`. -/
def ToBool (conv : Conv) : Option Value → Bool
  | some (Value.bool b) => b
  | some (Value.int n) => n ≠ 0
  | some (Value.str s) => (ParseBool s).getD false
  | some (Value.float f) => conv.floatToBool f
  | some (Value.map _) => false
  | none => false

/-- The `cast.ToInt` behind `viper.GetInt`; a value it cannot convert gives
`0`. -/
def ToInt (conv : Conv) : Option Value → Int
  | some (Value.int n) => toGoInt n
  | some (Value.float f) => (float64Trunc f).getD (conv.floatOutOfRange f)
  | some (Value.str s) => (conv.parseInt s).getD 0
  | some (Value.bool b) => if b then 1 else 0
  | some (Value.map _) => 0
  | none => 0

/-- The `cast.ToString` behind `viper.GetString`; a value it cannot convert
gives the empty string. -/
def ToString (conv : Conv) : Option Value → String
  | some (Value.str s) => s
  | some (Value.bool b) => if b then "true" else "false"
  | some (Value.float f) => conv.floatToString f
  | some (Value.int n) =>
    if -(2 ^ 63) ≤ n ∧ n < 2 ^ 63 then Itoa n else conv.bigIntToString n
  | some (Value.map _) => ""
  | none => ""

/-- The viper `GetBool`. -/
def Viper.GetBool (conv : Conv) (v : Viper) (key : String) : Bool :=
  ToBool conv (v.Get key)

/-- The viper `GetInt`. -/
def Viper.GetInt (conv : Conv) (v : Viper) (key : String) : Int :=
  ToInt conv (v.Get key)

/-- The viper `GetString`. -/
def Viper.GetString (conv : Conv) (v : Viper) (key : String) : String :=
  ToString conv (v.Get key)

/-! ## `loadConfig`, `init` and `main` -/

/-- How `loadConfig` ends: `log.Fatal` ended the process, or the function
returned with the viper state. -/
inductive Outcome where
  | fatal (message : String)
  | done (v : Viper)
  deriving DecidableEq

/-- The `viper.SetDefault` calls of `loadConfig`, in source order. -/
def setDefaults (v : Viper) : Viper :=
  let v := v.SetDefault "delegate.address" (Value.str "")
  let v := v.SetDefault "delegate.pubkey" (Value.str "")
  let v := v.SetDefault "delegate.Daddress" (Value.str "")
  let v := v.SetDefault "delegate.Dpubkey" (Value.str "")
  let v := v.SetDefault "voters.shareRatio" (Value.float 0)
  let v := v.SetDefault "voters.txdescription" (Value.str "share tx by ark-go")
  let v := v.SetDefault "voters.fidelity" (Value.bool true)
  let v := v.SetDefault "voters.fidelityLimit" (Value.int 24)
  let v := v.SetDefault "voters.minamount" (Value.float 0)
  let v := v.SetDefault "voters.deductTxFees" (Value.bool true)
  let v := v.SetDefault "voters.blocklist" (Value.str "")
  let v := v.SetDefault "voters.capBalance" (Value.bool false)
  let v := v.SetDefault "voters.balanceCapAmount" (Value.float 0)
  let v := v.SetDefault "voters.whitelist" (Value.str "")
  let v := v.SetDefault "costs.address" (Value.str "")
  let v := v.SetDefault "costs.shareRatio" (Value.float 0)
  let v := v.SetDefault "costs.txdescription" (Value.str "cost tx by ark-go")
  let v := v.SetDefault "costs.Daddress" (Value.str "")
  let v := v.SetDefault "reserve.address" (Value.str "")
  let v := v.SetDefault "reserve.shareRatio" (Value.float 0)
  let v := v.SetDefault "reserve.txdescription" (Value.str "reserve tx by ark-go")
  let v := v.SetDefault "reserve.Daddress" (Value.str "")
  let v := v.SetDefault "personal.address" (Value.str "")
  let v := v.SetDefault "personal.shareRatio" (Value.float 0)
  let v := v.SetDefault "personal.txdescription" (Value.str "personal tx by ark-go")
  let v := v.SetDefault "personal.Daddress" (Value.str "")
  let v := v.SetDefault "client.network" (Value.str "DEVNET")
  let v := v.SetDefault "server.address" (Value.str "0.0.0.0")
  let v := v.SetDefault "server.port" (Value.int 54000)
  let v := v.SetDefault "server.dbfilename" (Value.str "payment.db")
  let v := v.SetDefault "server.nodeip" (Value.str "")
  let v := v.SetDefault "web.frontend" (Value.bool false)
  let v := v.SetDefault "web.email" (Value.str "")
  let v := v.SetDefault "web.slack" (Value.str "")
  let v := v.SetDefault "web.reddit" (Value.str "")
  let v := v.SetDefault "web.arkforum" (Value.str "")
  let v := v.SetDefault "web.arknewsaddress" (Value.str "")
  v

/-- The source `loadConfig` on the viper state `v`; `exts` is
`viper.SupportedExts`. -/
def loadConfig (fs : FileSystem) (exts : List String) (v : Viper) : Outcome :=
  let v := v.SetConfigName "config"
  let v := v.AddConfigPath "cfg"
  let v := v.AddConfigPath "settings"
  match v.ReadInConfig fs exts with
  | (v, none) => Outcome.done (setDefaults v)
  | (v, some _) =>
    let v := v.SetConfigName "sample.config"
    let v := v.AddConfigPath "cfg"
    match v.ReadInConfig fs exts with
    | (v, none) => Outcome.done (setDefaults v)
    | (_, some _) => Outcome.fatal "No configuration file loaded - using defaults"

/-- How the process stands once `main` has handed over to `router.Run`, or
before: ended by `log.Fatal` (exit code 1), or listening on an address with a
router, under a configuration. -/
inductive Process where
  | exited (code : Nat) (message : String)
  | listening (addr : String) (router : Engine) (config : Viper)

/-- The source `main` after a completed `init`: the router of `gin.Default()`
gets its routes and `router.Run` is called with `address:port`. -/
def main (conv : Conv) (v : Viper) : Process :=
  let router := ginDefault
  let router := initializeRoutes (v.GetBool conv "web.frontend") router
  let pNodeInfo := v.GetString conv "server.address" ++ ":" ++ Itoa (v.GetInt conv "server.port")
  Process.listening pNodeInfo router v

/-- The source `init`: `loadConfig` on the global viper (`initLogger` and
`api.InitGlobals` do not touch the modelled state). -/
def init (fs : FileSystem) (exts : List String) : Outcome :=
  loadConfig fs exts viperNew

/-- The process from start: `init` runs first, and `main` runs only if `init`
returned; `log.Fatal` ends the process with exit code 1. -/
def start (fs : FileSystem) (exts : List String) (conv : Conv) : Process :=
  match init fs exts with
  | Outcome.fatal message => Process.exited 1 message
  | Outcome.done v => main conv v

/-- The viper state `loadConfig` returned, when it returned. -/
def Outcome.state : Outcome → Option Viper
  | Outcome.fatal _ => none
  | Outcome.done v => some v

/-- The address passed to `router.Run`, when the process got there. -/
def Process.addr : Process → Option String
  | Process.exited _ _ => none
  | Process.listening addr _ _ => some addr

/-! ## The configuration sources of the specification -/

/-- The file a named configuration is taken from: the first existing
`dir/name.ext`, directories in order and within a directory the extensions in
order. -/
def candidate (fs : FileSystem) (exts dirs : List String) (name : String) : Option String :=
  (dirs.flatMap (fun dir => exts.map (fun ext => pathJoin dir (name ++ "." ++ ext)))).find?
    (fun file => (fs file).isSome)

/-- Loading a named configuration from the search directories: the map of the
candidate file, when there is one and it parses. -/
def loadNamed (fs : FileSystem) (exts dirs : List String) (name : String) : Option ConfigMap :=
  match candidate fs exts dirs name with
  | none => none
  | some file =>
    match fs file with
    | some (FileContent.valid m) => some m
    | _ => none

/-- The production configuration: `config` under `cfg`, then `settings`. -/
def production (fs : FileSystem) (exts : List String) : Option ConfigMap :=
  loadNamed fs exts ["cfg", "settings"] "config"

/-- The sample configuration: `sample.config` under the same directories. -/
def sample (fs : FileSystem) (exts : List String) : Option ConfigMap :=
  loadNamed fs exts ["cfg", "settings"] "sample.config"

/-- The value a configuration file holds for a key: found under the path of
the key through its nested maps, a key of the file that contains the delimiter
taking precedence.  Nothing when the file does not set the key. -/
def fileValue (m : ConfigMap) (key : String) : Option Value :=
  searchMapWithPathPrefixes m (keyPath (toLower key))

/-- The parent of a key that is shadowed in a configuration file: the first proper
prefix of the key to which the file gives a value that is not a map; the empty
string when there is none. -/
def shadowedParent (m : ConfigMap) (key : String) : String :=
  isPathShadowedInDeepMap (keyPath (toLower key)) m

/-- The defaults of the recognized keys, as the source registers them. -/
def documentedDefaults : List (String × Value) :=
  [("delegate.address", Value.str ""), ("delegate.pubkey", Value.str ""),
   ("delegate.Daddress", Value.str ""), ("delegate.Dpubkey", Value.str ""),
   ("voters.shareRatio", Value.float 0), ("voters.txdescription", Value.str "share tx by ark-go"),
   ("voters.fidelity", Value.bool true), ("voters.fidelityLimit", Value.int 24),
   ("voters.minamount", Value.float 0), ("voters.deductTxFees", Value.bool true),
   ("voters.blocklist", Value.str ""), ("voters.capBalance", Value.bool false),
   ("voters.balanceCapAmount", Value.float 0), ("voters.whitelist", Value.str ""),
   ("costs.address", Value.str ""), ("costs.shareRatio", Value.float 0),
   ("costs.txdescription", Value.str "cost tx by ark-go"), ("costs.Daddress", Value.str ""),
   ("reserve.address", Value.str ""), ("reserve.shareRatio", Value.float 0),
   ("reserve.txdescription", Value.str "reserve tx by ark-go"),
   ("reserve.Daddress", Value.str ""),
   ("personal.address", Value.str ""), ("personal.shareRatio", Value.float 0),
   ("personal.txdescription", Value.str "personal tx by ark-go"),
   ("personal.Daddress", Value.str ""),
   ("client.network", Value.str "DEVNET"), ("server.address", Value.str "0.0.0.0"),
   ("server.port", Value.int 54000), ("server.dbfilename", Value.str "payment.db"),
   ("server.nodeip", Value.str ""),
   ("web.frontend", Value.bool false), ("web.email", Value.str ""), ("web.slack", Value.str ""),
   ("web.reddit", Value.str ""), ("web.arkforum", Value.str ""),
   ("web.arknewsaddress", Value.str "")]

/-! ## Auxiliary definitions and example inputs -/

/-- The six `Header().Set` calls of `CORSMiddleware`. -/
def corsHeaders (c : Context) : Context :=
  (((((c.HeaderSet "Access-Control-Allow-Origin" "*").HeaderSet
    "Access-Control-Max-Age" "86400").HeaderSet "Access-Control-Allow-Methods" "GET").HeaderSet
    "Access-Control-Allow-Headers"
    "Origin, Content-Type, Content-Length, Accept-Encoding, X-CSRF-Token, Authorization").HeaderSet
    "Access-Control-Expose-Headers" "Content-Length").HeaderSet
    "Access-Control-Allow-Credentials" "true"

/-- The extensions of `viper.SupportedExts`. -/
def SupportedExts : List String :=
  ["json", "toml", "yaml", "yml", "properties", "props", "prop", "hcl"]

/-- A conversion table for the examples, in which no parameter conversion
occurs. -/
def exampleConv : Conv :=
  { floatOutOfRange := fun _ => 0, floatToString := fun _ => "", floatToBool := fun _ => false,
    bigIntToString := fun _ => "", parseInt := fun _ => none }

/-- A working directory without any file. -/
def emptyFs : FileSystem := fun _ => none

/-- A working directory with a production file `cfg/config.yaml` and a sample
file `cfg/sample.config.toml`. -/
def productionFs : FileSystem := fun file =>
  if file = "cfg/config.yaml" then
    some (FileContent.valid [("voters", Value.map [("fidelitylimit", Value.int 12)]),
      ("server", Value.map [("port", Value.int 8080)])])
  else if file = "cfg/sample.config.toml" then
    some (FileContent.valid [("server", Value.map [("port", Value.int 1)])])
  else none

/-- A working directory whose production file `cfg/config.yaml` does not parse
and whose sample file lies under `settings`. -/
def sampleFs : FileSystem := fun file =>
  if file = "cfg/config.yaml" then some FileContent.invalid
  else if file = "settings/sample.config.json" then
    some (FileContent.valid [("server", Value.map [("address", Value.str "127.0.0.1")]),
      ("client", Value.map [("network", Value.str "MAINNET")])])
  else none

/-- A working directory whose production file `cfg/config.yaml` is the one line
`server: hello`. -/
def shadowFs : FileSystem := fun file =>
  if file = "cfg/config.yaml" then some (FileContent.valid [("server", Value.str "hello")])
  else none

/-- A working directory whose production file `cfg/config.yaml` sets
`server.port` to `18446744073709551615`. -/
def bigPortFs : FileSystem := fun file =>
  if file = "cfg/config.yaml" then
    some (FileContent.valid [("server", Value.map [("port", Value.int 18446744073709551615)])])
  else none

/-- A working directory whose production file `cfg/config.json` sets
`server.port` to `8080`, which a JSON parser reads as the float64 `8080.0`. -/
def jsonFs : FileSystem := fun file =>
  if file = "cfg/config.json" then
    some (FileContent.valid
      [("server", Value.map [("port", Value.float (1035 * 2 ^ 52 + 3984 * 2 ^ 40))])])
  else none

/-! ## Route table -/

theorem initializeRoutes_routes (frontend : Bool) :
    (initializeRoutes frontend ginDefault).routes =
      [⟨"GET", "/voters/rewards", [Handler.Logger, Handler.Recovery, Handler.CORSMiddleware,
          Handler.CheckServiceModelHandler, Handler.GetVotersPendingRewards]⟩,
       ⟨"GET", "/voters/blocked", [Handler.Logger, Handler.Recovery, Handler.CORSMiddleware,
          Handler.CheckServiceModelHandler, Handler.GetBlocked]⟩,
       ⟨"GET", "/voters", [Handler.Logger, Handler.Recovery, Handler.CORSMiddleware,
          Handler.CheckServiceModelHandler, Handler.GetVotersList]⟩,
       ⟨"GET", "/delegate", [Handler.Logger, Handler.Recovery, Handler.CORSMiddleware,
          Handler.CheckServiceModelHandler, Handler.GetDelegate]⟩,
       ⟨"GET", "/delegate/config", [Handler.Logger, Handler.Recovery, Handler.CORSMiddleware,
          Handler.CheckServiceModelHandler, Handler.GetDelegateSharingConfig]⟩,
       ⟨"GET", "/delegate/paymentruns", [Handler.Logger, Handler.Recovery,
          Handler.CORSMiddleware, Handler.CheckServiceModelHandler,
          Handler.GetDelegatePaymentRecord]⟩,
       ⟨"GET", "/delegate/paymentruns/details", [Handler.Logger, Handler.Recovery,
          Handler.CORSMiddleware, Handler.CheckServiceModelHandler,
          Handler.GetDelegatePaymentRecordDetails]⟩,
       ⟨"GET", "/delegate/nodestatus", [Handler.Logger, Handler.Recovery,
          Handler.CORSMiddleware, Handler.CheckServiceModelHandler,
          Handler.GetDelegateNodeStatus]⟩,
       ⟨"GET", "/service/start", [Handler.Logger, Handler.Recovery, Handler.CORSMiddleware,
          Handler.OnlyLocalCallAllowed, Handler.EnterServiceMode]⟩,
       ⟨"GET", "/service/stop", [Handler.Logger, Handler.Recovery, Handler.CORSMiddleware,
          Handler.OnlyLocalCallAllowed, Handler.LeaveServiceMode]⟩,
       ⟨"GET", "/social", [Handler.Logger, Handler.Recovery, Handler.CORSMiddleware,
          Handler.CheckServiceModelHandler, Handler.GetArkNewsFromAddress]⟩,
       ⟨"GET", "/social/info", [Handler.Logger, Handler.Recovery, Handler.CORSMiddleware,
          Handler.CheckServiceModelHandler, Handler.GetDelegateSocialData]⟩,
       ⟨"GET", "/proxy/senddark", [Handler.Logger, Handler.Recovery, Handler.CORSMiddleware,
          Handler.CheckServiceModelHandler, Handler.SendDARK]⟩] := by
  cases frontend <;> decide!

/-- C1: the route table built by `initializeRoutes` on the router of `main` has
13 routes with pairwise different paths, all of method GET; each of the eleven
voter, delegate, social and proxy paths of the specification is registered, each
of the two control paths is registered; every registered route is either one of
the eleven and carries `CheckServiceModelHandler` and not `OnlyLocalCallAllowed`,
or one of the two control paths and carries `OnlyLocalCallAllowed` and not
`CheckServiceModelHandler`.  So no other route exists and none is unguarded. -/
theorem route_table_is_http_surface (frontend : Bool) :
    (initializeRoutes frontend ginDefault).routes.length = 13 ∧
    ((initializeRoutes frontend ginDefault).routes.map (fun r => r.Path)).Nodup ∧
    (∀ r ∈ (initializeRoutes frontend ginDefault).routes, r.Method = "GET") ∧
    (∀ p ∈ gatedPaths ++ controlPaths,
      ∃ r ∈ (initializeRoutes frontend ginDefault).routes, r.Path = p) ∧
    (∀ r ∈ (initializeRoutes frontend ginDefault).routes,
      (r.Path ∈ gatedPaths ∧ Handler.CheckServiceModelHandler ∈ r.Handlers ∧
        Handler.OnlyLocalCallAllowed ∉ r.Handlers) ∨
      (r.Path ∈ controlPaths ∧ Handler.OnlyLocalCallAllowed ∈ r.Handlers ∧
        Handler.CheckServiceModelHandler ∉ r.Handlers)) := by
  cases frontend <;> decide!

/-! ## Handler chains -/

theorem CORSMiddleware_options (c : Context) (h : c.Request.Method = "OPTIONS") :
    (CORSMiddleware c).2 = Flow.abort := by
  have h1 : (((((((c.HeaderSet "Access-Control-Allow-Origin" "*").HeaderSet
      "Access-Control-Max-Age" "86400").HeaderSet "Access-Control-Allow-Methods" "GET").HeaderSet
      "Access-Control-Allow-Headers"
      "Origin, Content-Type, Content-Length, Accept-Encoding, X-CSRF-Token, Authorization").HeaderSet
      "Access-Control-Expose-Headers" "Content-Length").HeaderSet
      "Access-Control-Allow-Credentials" "true").Request.Method = "OPTIONS") := h
  simp only [CORSMiddleware, h1, if_true, Context.AbortWithStatus]

theorem CORSMiddleware_other (c : Context) (h : c.Request.Method ≠ "OPTIONS") :
    (CORSMiddleware c).2 = Flow.next := by
  have h1 : ¬ (((((((c.HeaderSet "Access-Control-Allow-Origin" "*").HeaderSet
      "Access-Control-Max-Age" "86400").HeaderSet "Access-Control-Allow-Methods" "GET").HeaderSet
      "Access-Control-Allow-Headers"
      "Origin, Content-Type, Content-Length, Accept-Encoding, X-CSRF-Token, Authorization").HeaderSet
      "Access-Control-Expose-Headers" "Content-Length").HeaderSet
      "Access-Control-Allow-Credentials" "true").Request.Method = "OPTIONS") := h
  simp only [CORSMiddleware, h1, if_false, Context.Next]

theorem serveChain_abort (api : Handler → HandlerFunc) (h : Handler) (rest : List Handler)
    (c : Context) (hf : (handlerFunc api h c).2 = Flow.abort) :
    serveChain api (h :: rest) c = ((handlerFunc api h c).1, [h]) := by
  rcases hc : handlerFunc api h c with ⟨c1, f⟩
  rw [hc] at hf
  simp only at hf
  subst hf
  simp only [serveChain, hc]

theorem serveChain_pass (api : Handler → HandlerFunc) (h : Handler) (rest : List Handler)
    (c : Context) (hf : (handlerFunc api h c).2 ≠ Flow.abort) :
    serveChain api (h :: rest) c =
      ((serveChain api rest (handlerFunc api h c).1).1,
        h :: (serveChain api rest (handlerFunc api h c).1).2) := by
  rcases hc : handlerFunc api h c with ⟨c1, f⟩
  rw [hc] at hf
  cases f
  · simp only [serveChain, hc]
  · exact absurd rfl hf
  · simp only [serveChain, hc]

theorem serveChain_logger_recovery (api : Handler → HandlerFunc) (rest : List Handler) (c : Context) :
    serveChain api (Handler.Logger :: Handler.Recovery :: rest) c =
      ((serveChain api rest c).1,
        Handler.Logger :: Handler.Recovery :: (serveChain api rest c).2) := by
  rw [serveChain_pass api Handler.Logger _ c (by simp [handlerFunc, Context.Next])]
  have h1 : (handlerFunc api Handler.Logger c).1 = c := rfl
  rw [h1, serveChain_pass api Handler.Recovery _ c (by simp [handlerFunc, Context.Next])]
  have h2 : (handlerFunc api Handler.Recovery c).1 = c := rfl
  rw [h2]

theorem serveChain_cors_options (api : Handler → HandlerFunc) (rest : List Handler)
    (c : Context) (h : c.Request.Method = "OPTIONS") :
    serveChain api (Handler.CORSMiddleware :: rest) c =
      ((CORSMiddleware c).1, [Handler.CORSMiddleware]) :=
  serveChain_abort api Handler.CORSMiddleware rest c (CORSMiddleware_options c h)

theorem serveChain_cors_other (api : Handler → HandlerFunc) (rest : List Handler)
    (c : Context) (h : c.Request.Method ≠ "OPTIONS") :
    serveChain api (Handler.CORSMiddleware :: rest) c =
      ((serveChain api rest (CORSMiddleware c).1).1,
        Handler.CORSMiddleware :: (serveChain api rest (CORSMiddleware c).1).2) :=
  serveChain_pass api Handler.CORSMiddleware rest c (by
    have := CORSMiddleware_other c h
    show (CORSMiddleware c).2 ≠ Flow.abort
    rw [this]; decide)

/-- The context a chain behind Logger, Recovery and CORSMiddleware ends with. -/
theorem serveChain_behind_cors (api : Handler → HandlerFunc) (rest : List Handler)
    (c : Context) :
    (serveChain api (Handler.Logger :: Handler.Recovery :: Handler.CORSMiddleware :: rest)
        c).1 =
      if c.Request.Method = "OPTIONS" then (CORSMiddleware c).1
      else (serveChain api rest (CORSMiddleware c).1).1 := by
  rw [serveChain_logger_recovery]
  by_cases h : c.Request.Method = "OPTIONS"
  · rw [serveChain_cors_options api rest c h, if_pos h]
  · rw [serveChain_cors_other api rest c h, if_neg h]

/-- The chain of a guarded route: what is invoked, by request method and by the
decision of the guard. -/
theorem guarded_chain (api : Handler → HandlerFunc) (guard endpoint : Handler)
    (hg : handlerFunc api guard = api guard) (c : Context) :
    (c.Request.Method = "OPTIONS" →
      (serveChain api [Handler.Logger, Handler.Recovery, Handler.CORSMiddleware, guard,
        endpoint] c).2 = [Handler.Logger, Handler.Recovery, Handler.CORSMiddleware]) ∧
    (c.Request.Method ≠ "OPTIONS" → (api guard (CORSMiddleware c).1).2 = Flow.abort →
      (serveChain api [Handler.Logger, Handler.Recovery, Handler.CORSMiddleware, guard,
        endpoint] c).2 = [Handler.Logger, Handler.Recovery, Handler.CORSMiddleware, guard]) ∧
    (c.Request.Method ≠ "OPTIONS" → (api guard (CORSMiddleware c).1).2 ≠ Flow.abort →
      (serveChain api [Handler.Logger, Handler.Recovery, Handler.CORSMiddleware, guard,
        endpoint] c).2 =
        [Handler.Logger, Handler.Recovery, Handler.CORSMiddleware, guard, endpoint]) := by
  refine ⟨fun h => ?_, fun h ha => ?_, fun h ha => ?_⟩
  · rw [serveChain_logger_recovery, serveChain_cors_options api _ c h]
  · rw [serveChain_logger_recovery, serveChain_cors_other api _ c h,
      serveChain_abort api guard _ _ (by rw [hg]; exact ha)]
  · rw [serveChain_logger_recovery, serveChain_cors_other api _ c h,
      serveChain_pass api guard _ _ (by rw [hg]; exact ha)]
    have he : ∀ x, (serveChain api [endpoint] x).2 = [endpoint] := by
      intro x
      by_cases hx : (handlerFunc api endpoint x).2 = Flow.abort
      · rw [serveChain_abort api endpoint _ _ hx]
      · rw [serveChain_pass api endpoint _ _ hx]; rfl
    rw [he]

/-- C2: every route registered by `initializeRoutes` on the router of `main` has
the chain Logger, Recovery, CORSMiddleware, guard, endpoint, the guard being
the service-availability or the loopback-only guard: CORSMiddleware stands
strictly before the guard and the guard strictly before the endpoint handler.
Running the chain, whatever the handlers of package api do: a preflight request
stops at CORSMiddleware, so neither guard nor endpoint is invoked; on any other
request a guard that aborts is the last handler invoked, so the endpoint is not
invoked; and a guard that does not abort is followed by the endpoint. -/
theorem chain_order_cors_guard_endpoint (frontend : Bool) (r : RouteInfo)
    (hr : r ∈ (initializeRoutes frontend ginDefault).routes) :
    ∃ guard endpoint : Handler,
      r.Handlers = [Handler.Logger, Handler.Recovery, Handler.CORSMiddleware, guard,
        endpoint] ∧
      (guard = Handler.CheckServiceModelHandler ∨ guard = Handler.OnlyLocalCallAllowed) ∧
      r.Handlers.indexOf Handler.CORSMiddleware < r.Handlers.indexOf guard ∧
      r.Handlers.indexOf guard < r.Handlers.indexOf endpoint ∧
      r.Handlers.indexOf endpoint < r.Handlers.length ∧
      ∀ (api : Handler → HandlerFunc) (c : Context),
        (c.Request.Method = "OPTIONS" →
          (serveChain api r.Handlers c).2 =
            [Handler.Logger, Handler.Recovery, Handler.CORSMiddleware]) ∧
        (c.Request.Method ≠ "OPTIONS" → (api guard (CORSMiddleware c).1).2 = Flow.abort →
          (serveChain api r.Handlers c).2 =
            [Handler.Logger, Handler.Recovery, Handler.CORSMiddleware, guard]) ∧
        (c.Request.Method ≠ "OPTIONS" → (api guard (CORSMiddleware c).1).2 ≠ Flow.abort →
          (serveChain api r.Handlers c).2 =
            [Handler.Logger, Handler.Recovery, Handler.CORSMiddleware, guard, endpoint]) := by
  rw [initializeRoutes_routes] at hr
  simp only [List.mem_cons, List.mem_singleton, List.not_mem_nil, or_false] at hr
  rcases hr with h | h | h | h | h | h | h | h | h | h | h | h | h <;> subst h <;>
    refine ⟨_, _, rfl, ?_, ?_, ?_, ?_, fun api c => guarded_chain api _ _ ?_ c⟩ <;>
    first | rfl | decide

theorem chain_order_cors_guard_endpoint_witness :
    ∃ guard endpoint : Handler,
      (RouteInfo.mk "GET" "/service/stop" [Handler.Logger, Handler.Recovery,
        Handler.CORSMiddleware, Handler.OnlyLocalCallAllowed,
        Handler.LeaveServiceMode]).Handlers =
        [Handler.Logger, Handler.Recovery, Handler.CORSMiddleware, guard, endpoint] ∧
      guard = Handler.OnlyLocalCallAllowed ∧ endpoint = Handler.LeaveServiceMode := by
  obtain ⟨g, e, h, -⟩ := chain_order_cors_guard_endpoint false
    (RouteInfo.mk "GET" "/service/stop" [Handler.Logger, Handler.Recovery,
      Handler.CORSMiddleware, Handler.OnlyLocalCallAllowed, Handler.LeaveServiceMode])
    (by decide!)
  refine ⟨g, e, h, ?_, ?_⟩
  · simp only [List.cons.injEq, and_true, true_and] at h
    exact h.1.symm
  · simp only [List.cons.injEq, and_true, true_and] at h
    exact h.2.symm

/-! ## CORS middleware -/

theorem corsHeaders_fields (c : Context) :
    (corsHeaders c).Request = c.Request ∧ (corsHeaders c).status = c.status ∧
    (corsHeaders c).sent = c.sent ∧ (corsHeaders c).size = c.size ∧
    (corsHeaders c).body = c.body :=
  ⟨rfl, rfl, rfl, rfl, rfl⟩

theorem CORSMiddleware_eq_options (c : Context) (h : c.Request.Method = "OPTIONS") :
    CORSMiddleware c = (((corsHeaders c).Status 200).WriteHeaderNow, Flow.abort) := by
  have h1 : (corsHeaders c).Request.Method = "OPTIONS" := h
  unfold corsHeaders at h1
  simp only [CORSMiddleware, h1, if_true, Context.AbortWithStatus, corsHeaders]

theorem CORSMiddleware_eq_other (c : Context) (h : c.Request.Method ≠ "OPTIONS") :
    CORSMiddleware c = (corsHeaders c, Flow.next) := by
  have h1 : ¬ (corsHeaders c).Request.Method = "OPTIONS" := h
  unfold corsHeaders at h1
  simp only [CORSMiddleware, h1, if_false, Context.Next, corsHeaders]

theorem Status_fields (c : Context) (code : Nat) (h : 0 < code) :
    (c.Status code).status = code ∧ (c.Status code).Request = c.Request ∧
    (c.Status code).header = c.header ∧ (c.Status code).sent = c.sent ∧
    (c.Status code).size = c.size ∧ (c.Status code).body = c.body := by
  unfold Context.Status
  by_cases hc : c.status = code
  · simp [hc]
  · simp [hc, h]

theorem WriteHeaderNow_fields (c : Context) :
    c.WriteHeaderNow.status = c.status ∧ c.WriteHeaderNow.Request = c.Request ∧
    c.WriteHeaderNow.header = c.header ∧ c.WriteHeaderNow.body = c.body ∧
    c.WriteHeaderNow.Written = true ∧
    (c.Written = false → c.WriteHeaderNow.sent = some c.status ∧ c.WriteHeaderNow.size = 0) ∧
    (c.Written = true → c.WriteHeaderNow = c) := by
  unfold Context.WriteHeaderNow
  by_cases hw : c.Written = true
  · simp [hw]
  · have hz : c.size = -1 := by
      simpa [Context.Written] using hw
    simp [hz, Context.Written]

/-- What `CORSMiddleware` leaves on a preflight request. -/
theorem CORSMiddleware_preflight (c : Context) (h : c.Request.Method = "OPTIONS") :
    (CORSMiddleware c).2 = Flow.abort ∧ (CORSMiddleware c).1.status = 200 ∧
    (CORSMiddleware c).1.body = c.body ∧ (CORSMiddleware c).1.Written = true ∧
    (c.Written = false →
      (CORSMiddleware c).1.sent = some 200 ∧ (CORSMiddleware c).1.size = 0) := by
  rw [CORSMiddleware_eq_options c h]
  have hs := Status_fields (corsHeaders c) 200 (by decide)
  have hw := WriteHeaderNow_fields ((corsHeaders c).Status 200)
  have hc := corsHeaders_fields c
  refine ⟨rfl, ?_, ?_, hw.2.2.2.2.1, fun hn => ?_⟩
  · show ((corsHeaders c).Status 200).WriteHeaderNow.status = 200
    rw [hw.1, hs.1]
  · show ((corsHeaders c).Status 200).WriteHeaderNow.body = c.body
    rw [hw.2.2.2.1, hs.2.2.2.2.2, hc.2.2.2.2]
  · have hn2 : ((corsHeaders c).Status 200).Written = false := by
      have : ((corsHeaders c).Status 200).size = c.size := by rw [hs.2.2.2.2.1, hc.2.2.2.1]
      simp only [Context.Written, this] at hn ⊢
      exact hn
    have := hw.2.2.2.2.2.1 hn2
    rw [hs.1] at this
    exact this

theorem CORSMiddleware_header (c : Context) :
    (CORSMiddleware c).1.header = (corsHeaders c).header := by
  by_cases h : c.Request.Method = "OPTIONS"
  · rw [CORSMiddleware_eq_options c h]
    show ((corsHeaders c).Status 200).WriteHeaderNow.header = _
    rw [(WriteHeaderNow_fields _).2.2.1, (Status_fields _ 200 (by decide)).2.2.1]
  · rw [CORSMiddleware_eq_other c h]

theorem corsHeaders_get (c : Context) :
    (corsHeaders c).HeaderGet "Access-Control-Allow-Origin" = "*" ∧
    (corsHeaders c).HeaderGet "Access-Control-Max-Age" = "86400" ∧
    (corsHeaders c).HeaderGet "Access-Control-Allow-Methods" = "GET" ∧
    (corsHeaders c).HeaderGet "Access-Control-Allow-Headers" =
      "Origin, Content-Type, Content-Length, Accept-Encoding, X-CSRF-Token, Authorization" ∧
    (corsHeaders c).HeaderGet "Access-Control-Expose-Headers" = "Content-Length" ∧
    (corsHeaders c).HeaderGet "Access-Control-Allow-Credentials" = "true" := by
  simp [Context.HeaderGet, corsHeaders, Context.HeaderSet, List.lookup, List.filter]

theorem initializeRoutes_allNoRoute (frontend : Bool) :
    (initializeRoutes frontend ginDefault).allNoRoute =
      Handler.Logger :: Handler.Recovery :: Handler.CORSMiddleware ::
        (if frontend then [Handler.StaticServe] else []) := by
  cases frontend <;> decide!

theorem initializeRoutes_no_options_route (frontend : Bool) :
    (initializeRoutes frontend ginDefault).routes.any (fun r => r.Method = "OPTIONS") = false := by
  cases frontend <;> decide!

/-- The answer of the engine of `main` to a preflight request. -/
theorem ServeHTTP_options (api : Handler → HandlerFunc)
    (redirect : Engine → Context → Option Context) (frontend : Bool) (r : Request)
    (h : r.Method = "OPTIONS") :
    (Engine.ServeHTTP api redirect (initializeRoutes frontend ginDefault) r).2 =
        [Handler.Logger, Handler.Recovery, Handler.CORSMiddleware] ∧
    (Engine.ServeHTTP api redirect (initializeRoutes frontend ginDefault) r).1.sent = some 200 ∧
    (Engine.ServeHTTP api redirect (initializeRoutes frontend ginDefault) r).1.status = 200 ∧
    (Engine.ServeHTTP api redirect (initializeRoutes frontend ginDefault) r).1.size = 0 ∧
    (Engine.ServeHTTP api redirect (initializeRoutes frontend ginDefault) r).1.body = "" := by
  have hm : (Context.reset r).Request.Method = "OPTIONS" := h
  have hm4 : ({ Context.reset r with status := 404 } : Context).Request.Method = "OPTIONS" := h
  have hp := CORSMiddleware_preflight { Context.reset r with status := 404 } hm4
  have hserve : Engine.ServeHTTP api redirect (initializeRoutes frontend ginDefault) r =
      ((CORSMiddleware { Context.reset r with status := 404 }).1,
        [Handler.Logger, Handler.Recovery, Handler.CORSMiddleware]) := by
    unfold Engine.ServeHTTP Engine.handleHTTPRequest
    rw [hm, initializeRoutes_no_options_route]
    simp only [Bool.false_eq_true, if_false]
    unfold serveError
    simp only [initializeRoutes_allNoRoute]
    rw [serveChain_logger_recovery, serveChain_cors_options api _ _ hm4]
    simp only [hp.2.2.2.1, if_true]
  rw [hserve]
  have hsz := hp.2.2.2.2 rfl
  exact ⟨rfl, hsz.1, hp.2.1, hsz.2, hp.2.2.1⟩

/-- C3: on a request of method OPTIONS, `CORSMiddleware` aborts the chain, the
writer holds status 200 (sent as such when nothing was written before), the body
is left as it was, and whatever stands behind it in a chain is not invoked; the
engine of `main` therefore answers an OPTIONS request on any path with status
200, an empty body, and no handler invoked after `CORSMiddleware`.  On a request
of any other method `CORSMiddleware` ends in `c.Next()`, leaves status, written
state and body as they were, and the rest of the chain runs on the context it
leaves. -/
theorem preflight_short_circuits (api : Handler → HandlerFunc) (c : Context) :
    (c.Request.Method = "OPTIONS" →
      (CORSMiddleware c).2 = Flow.abort ∧
      (CORSMiddleware c).1.status = 200 ∧
      (CORSMiddleware c).1.body = c.body ∧
      (c.Written = false →
        (CORSMiddleware c).1.sent = some 200 ∧ (CORSMiddleware c).1.size = 0) ∧
      ∀ rest : List Handler,
        serveChain api (Handler.CORSMiddleware :: rest) c =
          ((CORSMiddleware c).1, [Handler.CORSMiddleware])) ∧
    (c.Request.Method ≠ "OPTIONS" →
      (CORSMiddleware c).2 = Flow.next ∧
      (CORSMiddleware c).1.status = c.status ∧
      (CORSMiddleware c).1.sent = c.sent ∧
      (CORSMiddleware c).1.size = c.size ∧
      (CORSMiddleware c).1.body = c.body ∧
      ∀ rest : List Handler,
        serveChain api (Handler.CORSMiddleware :: rest) c =
          ((serveChain api rest (CORSMiddleware c).1).1,
            Handler.CORSMiddleware :: (serveChain api rest (CORSMiddleware c).1).2)) ∧
    (∀ (redirect : Engine → Context → Option Context) (frontend : Bool) (path addr : String),
      (Engine.ServeHTTP api redirect (initializeRoutes frontend ginDefault)
          ⟨"OPTIONS", path, addr⟩).2 =
        [Handler.Logger, Handler.Recovery, Handler.CORSMiddleware] ∧
      (Engine.ServeHTTP api redirect (initializeRoutes frontend ginDefault)
          ⟨"OPTIONS", path, addr⟩).1.sent = some 200 ∧
      (Engine.ServeHTTP api redirect (initializeRoutes frontend ginDefault)
          ⟨"OPTIONS", path, addr⟩).1.body = "") := by
  refine ⟨fun h => ?_, fun h => ?_, fun redirect frontend path addr => ?_⟩
  · have hp := CORSMiddleware_preflight c h
    exact ⟨hp.1, hp.2.1, hp.2.2.1, hp.2.2.2.2, fun rest => serveChain_cors_options api rest c h⟩
  · rw [CORSMiddleware_eq_other c h]
    exact ⟨rfl, rfl, rfl, rfl, rfl, fun rest => by
      have := serveChain_cors_other api rest c h
      rw [CORSMiddleware_eq_other c h] at this
      exact this⟩
  · have := ServeHTTP_options api redirect frontend ⟨"OPTIONS", path, addr⟩ rfl
    exact ⟨this.1, this.2.1, this.2.2.2.2⟩

/-- C4: whatever the request, the context `CORSMiddleware` leaves has
Access-Control-Allow-Origin `*`, Access-Control-Max-Age `86400`,
Access-Control-Allow-Methods `GET`, Access-Control-Allow-Headers `Origin,
Content-Type, Content-Length, Accept-Encoding, X-CSRF-Token, Authorization` and
Access-Control-Allow-Credentials `true`; in every chain the handlers behind
`CORSMiddleware` start from that context; and in the chain of every registered
route the guard and the endpoint run, if at all, on the context that
`CORSMiddleware` leaves, so the headers are set before any of them runs and
whatever they decide. -/
theorem cors_headers_fixed (c : Context) :
    (CORSMiddleware c).1.HeaderGet "Access-Control-Allow-Origin" = "*" ∧
    (CORSMiddleware c).1.HeaderGet "Access-Control-Max-Age" = "86400" ∧
    (CORSMiddleware c).1.HeaderGet "Access-Control-Allow-Methods" = "GET" ∧
    (CORSMiddleware c).1.HeaderGet "Access-Control-Allow-Headers" =
      "Origin, Content-Type, Content-Length, Accept-Encoding, X-CSRF-Token, Authorization" ∧
    (CORSMiddleware c).1.HeaderGet "Access-Control-Allow-Credentials" = "true" ∧
    (∀ (api : Handler → HandlerFunc) (rest : List Handler),
      serveChain api (Handler.CORSMiddleware :: rest) c =
          ((CORSMiddleware c).1, [Handler.CORSMiddleware]) ∨
      serveChain api (Handler.CORSMiddleware :: rest) c =
          ((serveChain api rest (CORSMiddleware c).1).1,
            Handler.CORSMiddleware :: (serveChain api rest (CORSMiddleware c).1).2)) ∧
    (∀ (api : Handler → HandlerFunc) (frontend : Bool),
      ∀ r ∈ (initializeRoutes frontend ginDefault).routes,
        ∃ guard endpoint : Handler,
          r.Handlers = [Handler.Logger, Handler.Recovery, Handler.CORSMiddleware, guard,
            endpoint] ∧
          (serveChain api r.Handlers c).1 =
            if c.Request.Method = "OPTIONS" then (CORSMiddleware c).1
            else (serveChain api [guard, endpoint] (CORSMiddleware c).1).1) := by
  have hg := corsHeaders_get c
  have hh := CORSMiddleware_header c
  simp only [Context.HeaderGet] at hg ⊢
  rw [hh]
  refine ⟨hg.1, hg.2.1, hg.2.2.1, hg.2.2.2.1, hg.2.2.2.2.2, fun api rest => ?_,
    fun api frontend r hr => ?_⟩
  · by_cases h : c.Request.Method = "OPTIONS"
    · exact Or.inl (serveChain_cors_options api rest c h)
    · exact Or.inr (serveChain_cors_other api rest c h)
  · rw [initializeRoutes_routes] at hr
    simp only [List.mem_cons, List.mem_singleton, List.not_mem_nil, or_false] at hr
    rcases hr with h | h | h | h | h | h | h | h | h | h | h | h | h <;> subst h <;>
    exact ⟨_, _, rfl, serveChain_behind_cors api _ c⟩

/-- C5, as the code has it: `GET /service/start` is bound to `EnterServiceMode`
and takes the gateway to `Suspended` from either mode; `GET /service/stop` is
bound to `LeaveServiceMode` and takes it to `Active` from either mode. -/
theorem start_enters_stop_leaves (frontend : Bool) (m : ServiceMode) :
    (initializeRoutes frontend ginDefault).endpoint "GET" "/service/start" =
      some Handler.EnterServiceMode ∧
    (initializeRoutes frontend ginDefault).controlTransition "/service/start" m =
      some ServiceMode.Suspended ∧
    (initializeRoutes frontend ginDefault).endpoint "GET" "/service/stop" =
      some Handler.LeaveServiceMode ∧
    (initializeRoutes frontend ginDefault).controlTransition "/service/stop" m =
      some ServiceMode.Active := by
  cases frontend <;> cases m <;> decide!

/-- C5 as stated fails: `GET /service/stop` is not bound to the handler that
enters service mode and does not take an `Active` gateway to `Suspended`, and
`GET /service/start` is not bound to the handler that leaves service mode and
does not take a `Suspended` gateway to `Active`. -/
theorem stop_does_not_enter_service_mode :
    (initializeRoutes false ginDefault).endpoint "GET" "/service/stop" ≠
      some Handler.EnterServiceMode ∧
    (initializeRoutes false ginDefault).controlTransition "/service/stop"
      ServiceMode.Active ≠ some ServiceMode.Suspended ∧
    (initializeRoutes false ginDefault).endpoint "GET" "/service/start" ≠
      some Handler.LeaveServiceMode ∧
    (initializeRoutes false ginDefault).controlTransition "/service/start"
      ServiceMode.Suspended ≠ some ServiceMode.Active := by
  decide!


/-! ## Configuration resolution -/

theorem pathClean_ne_empty (p : String) : pathClean p ≠ "" := by
  unfold pathClean
  intro h
  have hd := congrArg String.data h
  split at hd
  · exact absurd hd (by decide)
  · simp only at hd
    split at hd
    · simp [String.data_append] at hd
    · split at hd
      · exact absurd hd (by decide)
      · rename_i hb
        exact hb hd

theorem pathJoin_ne_empty (a b : String) (hb : b.data ≠ []) : pathJoin a b ≠ "" := by
  unfold pathJoin
  split
  · rename_i h; exact absurd h.2 hb
  · split
    · exact pathClean_ne_empty _
    · exact pathClean_ne_empty _

theorem candidate_file_ne_empty (dir name ext : String) :
    pathJoin dir (name ++ "." ++ ext) ≠ "" :=
  pathJoin_ne_empty _ _ (by simp [String.data_append])

theorem searchInPath_snd (fs : FileSystem) (name dir : String) (exts : List String) :
    (searchInPath fs name dir exts).2 =
      (((exts.map (fun ext => pathJoin dir (name ++ "." ++ ext))).find?
        (fun file => (fs file).isSome)).getD "") := by
  induction exts with
  | nil => rfl
  | cons ext exts ih =>
    simp only [searchInPath, List.map_cons, List.find?_cons]
    by_cases h : (fs (pathJoin dir (name ++ "." ++ ext))).isSome = true
    · simp [h]
    · simp only [h, Bool.false_eq_true, if_false]
      exact ih

theorem find_getD_ne_empty (fs : FileSystem) (name dir : String) (exts : List String)
    (f : String)
    (h : (exts.map (fun ext => pathJoin dir (name ++ "." ++ ext))).find?
      (fun file => (fs file).isSome) = some f) : f ≠ "" := by
  have hm := List.mem_of_find?_eq_some h
  simp only [List.mem_map] at hm
  obtain ⟨ext, -, rfl⟩ := hm
  exact candidate_file_ne_empty dir name ext

theorem findConfigFile_snd (fs : FileSystem) (exts : List String) (name : String)
    (dirs : List String) :
    (findConfigFile fs exts name dirs).2 = candidate fs exts dirs name := by
  induction dirs with
  | nil => rfl
  | cons dir dirs ih =>
    unfold candidate at ih ⊢
    simp only [findConfigFile, List.flatMap_cons, List.find?_append, searchInPath_snd]
    cases hf : (exts.map (fun ext => pathJoin dir (name ++ "." ++ ext))).find?
        (fun file => (fs file).isSome) with
    | none =>
      simp only [Option.getD_none, ne_eq, not_true_eq_false, if_false, Option.none_or]
      exact ih
    | some f =>
      have hne := find_getD_ne_empty fs name dir exts f hf
      simp only [Option.getD_some, ne_eq, hne, not_false_eq_true, if_true]
      rfl

theorem searchInPath_events (fs : FileSystem) (name dir : String) (exts : List String) :
    ∀ e ∈ (searchInPath fs name dir exts).1, e.name = name ∧ e.isLoad = false := by
  induction exts with
  | nil => intro e he; simp [searchInPath] at he
  | cons ext exts ih =>
    intro e he
    simp only [searchInPath] at he
    split at he
    · simp only [List.mem_singleton] at he
      subst he
      exact ⟨rfl, rfl⟩
    · simp only [List.mem_cons] at he
      rcases he with he | he
      · subst he
        exact ⟨rfl, rfl⟩
      · exact ih e he

theorem findConfigFile_events (fs : FileSystem) (exts : List String) (name : String)
    (dirs : List String) :
    ∀ e ∈ (findConfigFile fs exts name dirs).1, e.name = name ∧ e.isLoad = false := by
  induction dirs with
  | nil => intro e he; simp [findConfigFile] at he
  | cons dir dirs ih =>
    intro e he
    simp only [findConfigFile] at he
    split at he
    · exact searchInPath_events fs name dir exts e he
    · simp only [List.mem_append] at he
      rcases he with he | he
      · exact searchInPath_events fs name dir exts e he
      · exact ih e he


/-- What `ReadInConfig` does on a state without cached file, in terms of
`loadNamed`: a load that succeeds installs the map, a load that fails leaves the
map, the name and the search paths as they were; the events added are the call
and existence tests under the current name. -/
theorem ReadInConfig_spec (fs : FileSystem) (exts : List String) (v : Viper)
    (hcf : v.configFile = "") :
    ∃ evs : List Event, (∀ e ∈ evs, e.name = v.configName ∧ e.isLoad = false) ∧
      (∀ m, loadNamed fs exts v.configPaths v.configName = some m →
        ∃ cf, v.ReadInConfig fs exts =
          ({ v with log := v.log ++ Event.load v.configName :: evs, configFile := cf,
                    config := m }, none)) ∧
      (loadNamed fs exts v.configPaths v.configName = none →
        ∃ cf err, v.ReadInConfig fs exts =
          ({ v with log := v.log ++ Event.load v.configName :: evs, configFile := cf },
            some err)) := by
  refine ⟨(findConfigFile fs exts v.configName v.configPaths).1,
    findConfigFile_events fs exts v.configName v.configPaths, ?_, ?_⟩
  · intro m hm
    unfold loadNamed at hm
    rw [← findConfigFile_snd] at hm
    rcases hq : findConfigFile fs exts v.configName v.configPaths with ⟨evs, o⟩
    rw [hq] at hm
    cases o with
    | none => simp at hm
    | some file =>
      simp only at hm
      refine ⟨file, ?_⟩
      cases hfile : fs file with
      | none => rw [hfile] at hm; simp at hm
      | some content =>
        rw [hfile] at hm
        cases content with
        | invalid => simp at hm
        | valid m1 =>
          simp only [Option.some.injEq] at hm
          subst hm
          simp [Viper.ReadInConfig, Viper.getConfigFile, hcf, hq, hfile]
  · intro hm
    unfold loadNamed at hm
    rw [← findConfigFile_snd] at hm
    rcases hq : findConfigFile fs exts v.configName v.configPaths with ⟨evs, o⟩
    rw [hq] at hm
    cases o with
    | none =>
      exact ⟨"", ConfigError.ConfigFileNotFoundError, by
        simp [Viper.ReadInConfig, Viper.getConfigFile, hcf, hq]⟩
    | some file =>
      simp only at hm
      refine ⟨file, ConfigError.ConfigParseError, ?_⟩
      cases hfile : fs file with
      | none => simp [Viper.ReadInConfig, Viper.getConfigFile, hcf, hq, hfile]
      | some content =>
        rw [hfile] at hm
        cases content with
        | invalid => simp [Viper.ReadInConfig, Viper.getConfigFile, hcf, hq, hfile]
        | valid m1 => simp at hm

theorem loadConfig_setup :
    ((viperNew.SetConfigName "config").AddConfigPath "cfg").AddConfigPath "settings" =
      { configName := "config", configFile := "", configPaths := ["cfg", "settings"],
        config := [], defaults := [], log := [] } := by
  decide!

theorem loadConfig_retry (cf : String) (l : List Event) :
    (({ configName := "config", configFile := cf, configPaths := ["cfg", "settings"],
        config := [], defaults := [], log := l } : Viper).SetConfigName
          "sample.config").AddConfigPath "cfg" =
      { configName := "sample.config", configFile := "", configPaths := ["cfg", "settings"],
        config := [], defaults := [], log := l } := by
  simp [Viper.SetConfigName, Viper.AddConfigPath]

/-- The production configuration loads: `loadConfig` returns after one
`ReadInConfig`. -/
theorem loadConfig_production (fs : FileSystem) (exts : List String) (m : ConfigMap)
    (h : production fs exts = some m) :
    ∃ (cf : String) (evs : List Event),
      (∀ e ∈ evs, e.name = "config" ∧ e.isLoad = false) ∧
      loadConfig fs exts viperNew = Outcome.done (setDefaults
        { configName := "config", configFile := cf, configPaths := ["cfg", "settings"],
          config := m, defaults := [], log := Event.load "config" :: evs }) := by
  obtain ⟨evs, hev, hok, -⟩ := ReadInConfig_spec fs exts
    { configName := "config", configFile := "", configPaths := ["cfg", "settings"],
      config := [], defaults := [], log := [] } rfl
  obtain ⟨cf, hread⟩ := hok m h
  refine ⟨cf, evs, hev, ?_⟩
  unfold loadConfig
  simp only [loadConfig_setup, hread, List.nil_append]

/-- The production configuration does not load and the sample does. -/
theorem loadConfig_sample (fs : FileSystem) (exts : List String) (m : ConfigMap)
    (hp : production fs exts = none) (h : sample fs exts = some m) :
    ∃ (cf : String) (l : List Event),
      loadConfig fs exts viperNew = Outcome.done (setDefaults
        { configName := "sample.config", configFile := cf, configPaths := ["cfg", "settings"],
          config := m, defaults := [], log := l }) := by
  obtain ⟨evs, -, -, hfail⟩ := ReadInConfig_spec fs exts
    { configName := "config", configFile := "", configPaths := ["cfg", "settings"],
      config := [], defaults := [], log := [] } rfl
  obtain ⟨cf, err, hread⟩ := hfail hp
  obtain ⟨evs2, -, hok, -⟩ := ReadInConfig_spec fs exts
    { configName := "sample.config", configFile := "", configPaths := ["cfg", "settings"],
      config := [], defaults := [], log := Event.load "config" :: evs } rfl
  obtain ⟨cf2, hread2⟩ := hok m h
  refine ⟨cf2, (Event.load "config" :: evs) ++ Event.load "sample.config" :: evs2, ?_⟩
  unfold loadConfig
  simp only [loadConfig_setup, hread, List.nil_append, loadConfig_retry, hread2]

/-- Neither configuration loads. -/
theorem loadConfig_fatal (fs : FileSystem) (exts : List String)
    (hp : production fs exts = none) (h : sample fs exts = none) :
    loadConfig fs exts viperNew =
      Outcome.fatal "No configuration file loaded - using defaults" := by
  obtain ⟨evs, -, -, hfail⟩ := ReadInConfig_spec fs exts
    { configName := "config", configFile := "", configPaths := ["cfg", "settings"],
      config := [], defaults := [], log := [] } rfl
  obtain ⟨cf, err, hread⟩ := hfail hp
  obtain ⟨evs2, -, -, hfail2⟩ := ReadInConfig_spec fs exts
    { configName := "sample.config", configFile := "", configPaths := ["cfg", "settings"],
      config := [], defaults := [], log := Event.load "config" :: evs } rfl
  obtain ⟨cf2, err2, hread2⟩ := hfail2 h
  unfold loadConfig
  simp only [loadConfig_setup, hread, List.nil_append, loadConfig_retry, hread2]


theorem SetDefault_mk (n f : String) (p : List String) (c d : ConfigMap) (l : List Event)
    (key : String) (x : Value) :
    (Viper.mk n f p c d l).SetDefault key x =
      Viper.mk n f p c (setDeep d (keyPath (toLower key)).dropLast
        (toLower ((keyPath (toLower key)).getLast?.getD "")) x) l :=
  rfl

theorem setDefaults_eq (w : Viper) (hw : w.defaults = []) :
    setDefaults w = { w with defaults := (setDefaults viperNew).defaults } := by
  cases w
  simp only at hw
  subst hw
  simp only [setDefaults, viperNew, SetDefault_mk]

theorem defaults_table :
    ∀ kd ∈ documentedDefaults,
      searchMap (setDefaults viperNew).defaults (keyPath (toLower kd.1)) = some kd.2 ∧
      1 < (keyPath (toLower kd.1)).length := by
  decide!

/-- A read after `setDefaults`, on a state that had no defaults before. -/
theorem Get_setDefaults (w : Viper) (hw : w.defaults = []) (key : String) :
    (setDefaults w).Get key =
      match fileValue w.config key with
      | some val => some val
      | none =>
        if 1 < (keyPath (toLower key)).length ∧ shadowedParent w.config key ≠ "" then none
        else searchMap (setDefaults viperNew).defaults (keyPath (toLower key)) := by
  rw [setDefaults_eq w hw]
  rfl

theorem Get_setDefaults_file (w : Viper) (hw : w.defaults = []) (key : String) (x : Value)
    (h : fileValue w.config key = some x) : (setDefaults w).Get key = some x := by
  rw [Get_setDefaults w hw, h]

theorem Get_setDefaults_default (w : Viper) (hw : w.defaults = []) (kd : String × Value)
    (hk : kd ∈ documentedDefaults) (h : fileValue w.config kd.1 = none)
    (hs : shadowedParent w.config kd.1 = "") :
    (setDefaults w).Get kd.1 = some kd.2 := by
  rw [Get_setDefaults w hw, h]
  simp only [hs, ne_eq, not_true_eq_false, and_false, if_false]
  exact (defaults_table kd hk).1

theorem Get_setDefaults_shadowed (w : Viper) (hw : w.defaults = []) (kd : String × Value)
    (hk : kd ∈ documentedDefaults) (h : fileValue w.config kd.1 = none)
    (hs : shadowedParent w.config kd.1 ≠ "") :
    (setDefaults w).Get kd.1 = none := by
  rw [Get_setDefaults w hw, h]
  simp only [(defaults_table kd hk).2, ne_eq, hs, not_false_eq_true, and_self, if_true]

theorem toGoInt_of_range (p : Int) (h1 : -(2 ^ 63) ≤ p) (h2 : p < 2 ^ 63) : toGoInt p = p := by
  unfold toGoInt
  have hmod : (p + 2 ^ 63) % 2 ^ 64 = p + 2 ^ 63 :=
    Int.emod_eq_of_lt (by linarith) (by norm_num at h2 ⊢; linarith)
  rw [hmod]
  ring

/-- The keys `server.address` and `server.port` have the same parent. -/
theorem shadowedParent_server (m : ConfigMap) :
    shadowedParent m "server.address" = shadowedParent m "server.port" := by
  have ha : keyPath (toLower "server.address") = ["server", "address"] := by decide!
  have hp : keyPath (toLower "server.port") = ["server", "port"] := by decide!
  unfold shadowedParent isPathShadowedInDeepMap
  rw [ha, hp]
  simp only [shadowLoop]

theorem Char_toLower_toLower (c : Char) : c.toLower.toLower = c.toLower := by
  by_cases h : c.toNat ≥ 65 ∧ c.toNat ≤ 90
  · have h1 : c.toLower = Char.ofNat (c.toNat + 32) := by
      unfold Char.toLower
      simp only [h, and_self, if_true]
    have hv : (c.toNat + 32).isValidChar := by
      left
      omega
    have h2 : (Char.ofNat (c.toNat + 32)).toNat = c.toNat + 32 := by
      unfold Char.ofNat
      simp only [hv, dite_true]
      rfl
    rw [h1]
    unfold Char.toLower
    rw [h2]
    have : ¬ (c.toNat + 32 ≥ 65 ∧ c.toNat + 32 ≤ 90) := by omega
    simp only [this, if_false]
  · have h1 : c.toLower = c := by
      unfold Char.toLower
      simp only [h, if_false]
    rw [h1, h1]

theorem toLower_toLower (s : String) : toLower (toLower s) = toLower s := by
  unfold toLower
  simp only [List.map_map]
  congr 1
  apply List.map_congr_left
  intro c _
  exact Char_toLower_toLower c

theorem splitDelim_ne_nil (cs : List Char) : splitDelim cs ≠ [] := by
  cases cs with
  | nil => simp [splitDelim]
  | cons c cs =>
    simp only [splitDelim]
    split
    · simp
    · split <;> simp

theorem intercalate_splitDelim (cs : List Char) :
    List.intercalate ['.'] (splitDelim cs) = cs := by
  induction cs with
  | nil => rfl
  | cons c cs ih =>
    simp only [splitDelim]
    cases hsp : splitDelim cs with
    | nil => exact absurd hsp (splitDelim_ne_nil cs)
    | cons w ws =>
      rw [hsp] at ih
      simp only
      by_cases hc : c = '.'
      · subst hc
        simp only [if_true]
        have : List.intercalate ['.'] ([] :: w :: ws) = '.' :: List.intercalate ['.'] (w :: ws) := by
          simp [List.intercalate, List.intersperse]
        rw [this, ih]
      · simp only [hc, if_false]
        have : List.intercalate ['.'] ((c :: w) :: ws) = c :: List.intercalate ['.'] (w :: ws) := by
          cases ws <;> simp [List.intercalate, List.intersperse]
        rw [this, ih]

theorem joinPath_keyPath (key : String) : joinPath (keyPath key) = key := by
  unfold joinPath keyPath
  have : List.map String.data (List.map String.mk (splitDelim key.data)) = splitDelim key.data := by
    rw [List.map_map]
    exact List.map_id _
  rw [this, intercalate_splitDelim]

theorem searchPrefixes_whole (m : ConfigMap) (x : Value) (rest pre : List String)
    (h : m.lookup (toLower (joinPath (pre ++ rest))) = some x) :
    searchPrefixes pre rest m = some x := by
  induction rest generalizing pre with
  | nil =>
    rw [List.append_nil] at h
    simp only [searchPrefixes, h]
  | cons r rs ih =>
    have h2 : m.lookup (toLower (joinPath ((pre ++ [r]) ++ rs))) = some x := by
      rw [List.append_assoc]
      exact h
    simp only [searchPrefixes, ih (pre ++ [r]) h2]

/-- A key that is itself a key of the file, delimiter included, has the value
the file gives it. -/
theorem fileValue_of_lookup (m : ConfigMap) (key : String) (x : Value)
    (h : m.lookup (toLower key) = some x) : fileValue m key = some x := by
  unfold fileValue
  have hj := joinPath_keyPath (toLower key)
  cases hp : keyPath (toLower key) with
  | nil =>
    have hne : keyPath (toLower key) ≠ [] := by
      unfold keyPath
      simp [splitDelim_ne_nil]
    exact absurd hp hne
  | cons p ps =>
    rw [hp] at hj
    simp only [searchMapWithPathPrefixes]
    apply searchPrefixes_whole
    show m.lookup (toLower (joinPath (p :: ps))) = some x
    rw [hj, toLower_toLower]
    exact h

/-- The process on the example with a JSON production file: the float64 port is
truncated to 8080. -/
theorem start_jsonFs :
    (start jsonFs SupportedExts exampleConv).addr = some "0.0.0.0:8080" := by
  decide!

/-- A configuration source loads: the production configuration, or else the
sample configuration. -/
theorem loadConfig_done (fs : FileSystem) (exts : List String) (m : ConfigMap)
    (h : production fs exts = some m ∨ (production fs exts = none ∧ sample fs exts = some m)) :
    ∃ w : Viper, loadConfig fs exts viperNew = Outcome.done (setDefaults w) ∧
      w.config = m ∧ w.defaults = [] := by
  rcases h with h | ⟨hp, hs⟩
  · obtain ⟨cf, evs, -, hl⟩ := loadConfig_production fs exts m h
    exact ⟨_, hl, rfl, rfl⟩
  · obtain ⟨cf, l, hl⟩ := loadConfig_sample fs exts m hp hs
    exact ⟨_, hl, rfl, rfl⟩

/-- C6: when neither the production nor the sample configuration loads,
`loadConfig` ends in `log.Fatal`: it returns no viper state, the process exits
with code 1 inside `init`, and `main` never composes routes or reaches
`router.Run`. -/
theorem both_fail_is_fatal (fs : FileSystem) (exts : List String) (conv : Conv)
    (hp : production fs exts = none) (hs : sample fs exts = none) :
    loadConfig fs exts viperNew =
      Outcome.fatal "No configuration file loaded - using defaults" ∧
    (∀ v : Viper, loadConfig fs exts viperNew ≠ Outcome.done v) ∧
    start fs exts conv = Process.exited 1 "No configuration file loaded - using defaults" ∧
    (∀ (addr : String) (router : Engine) (v : Viper),
      start fs exts conv ≠ Process.listening addr router v) := by
  have hl := loadConfig_fatal fs exts hp hs
  have hst : start fs exts conv =
      Process.exited 1 "No configuration file loaded - using defaults" := by
    unfold start init
    rw [hl]
  refine ⟨hl, fun v hv => ?_, hst, fun addr router v hv => ?_⟩
  · rw [hl] at hv
    exact Outcome.noConfusion hv
  · rw [hst] at hv
    exact Process.noConfusion hv

theorem both_fail_is_fatal_witness :
    production emptyFs SupportedExts = none ∧ sample emptyFs SupportedExts = none ∧
    start emptyFs SupportedExts exampleConv =
      Process.exited 1 "No configuration file loaded - using defaults" :=
  ⟨by decide!, by decide!,
    (both_fail_is_fatal emptyFs SupportedExts exampleConv (by decide!) (by decide!)).2.2.1⟩

/-- C7: when the production configuration loads, `loadConfig` returns after
exactly one `ReadInConfig`, the one for `config`; every file-system event
belongs to the name `config`, so no sample file is looked for; the configuration
map is the one of the production file, and every key that file sets, under
nested maps or as a key of its own, reads as the value of the file, before any
default. -/
theorem production_loads_alone (fs : FileSystem) (exts : List String) (m : ConfigMap)
    (h : production fs exts = some m) :
    ∃ v : Viper, loadConfig fs exts viperNew = Outcome.done v ∧
      v.log.filter Event.isLoad = [Event.load "config"] ∧
      (∀ e ∈ v.log, e.name = "config") ∧
      v.config = m ∧
      (∀ (key : String) (x : Value), fileValue m key = some x → v.Get key = some x) ∧
      (∀ (key : String) (x : Value), m.lookup (toLower key) = some x → v.Get key = some x) := by
  obtain ⟨cf, evs, hev, hl⟩ := loadConfig_production fs exts m h
  refine ⟨_, hl, ?_, ?_, rfl, fun key x hx => Get_setDefaults_file _ rfl key x hx,
    fun key x hx => Get_setDefaults_file _ rfl key x (fileValue_of_lookup _ key x hx)⟩
  · show (Event.load "config" :: evs).filter Event.isLoad = [Event.load "config"]
    have hnone : evs.filter Event.isLoad = [] := by
      rw [List.filter_eq_nil_iff]
      intro e he
      rw [(hev e he).2]
      decide
    simp [List.filter_cons, Event.isLoad, hnone]
  · intro e he
    have he2 : e ∈ Event.load "config" :: evs := he
    rcases List.mem_cons.1 he2 with he3 | he3
    · subst he3; rfl
    · exact (hev e he3).1

theorem production_loads_alone_witness :
    ∃ v : Viper, loadConfig productionFs SupportedExts viperNew = Outcome.done v ∧
      v.Get "server.port" = some (Value.int 8080) := by
  obtain ⟨v, hv, -, -, -, hget, -⟩ := production_loads_alone productionFs SupportedExts
    [("voters", Value.map [("fidelitylimit", Value.int 12)]),
      ("server", Value.map [("port", Value.int 8080)])] (by decide!)
  exact ⟨v, hv, hget "server.port" (Value.int 8080) (by decide!)⟩

/-- C8: when the production configuration does not load and the sample
configuration, looked for under `cfg` and `settings` like the production one,
does, `loadConfig` returns without `log.Fatal` and the process goes on to
listen; the search paths of the second `ReadInConfig` are `cfg` and `settings`,
the configuration map is the one of the sample file, and every key the sample
sets, under nested maps or as a key of its own, reads as the sample's value. -/
theorem sample_fallback_loads (fs : FileSystem) (exts : List String) (m : ConfigMap)
    (hp : production fs exts = none) (hs : sample fs exts = some m) :
    ∃ v : Viper, loadConfig fs exts viperNew = Outcome.done v ∧
      v.configName = "sample.config" ∧
      v.configPaths = ["cfg", "settings"] ∧
      v.config = m ∧
      (∀ (key : String) (x : Value), fileValue m key = some x → v.Get key = some x) ∧
      (∀ (key : String) (x : Value), m.lookup (toLower key) = some x → v.Get key = some x) ∧
      (∀ conv : Conv, ∃ (addr : String) (router : Engine),
        start fs exts conv = Process.listening addr router v) := by
  obtain ⟨cf, l, hl⟩ := loadConfig_sample fs exts m hp hs
  refine ⟨_, hl, rfl, rfl, rfl, fun key x hx => Get_setDefaults_file _ rfl key x hx,
    fun key x hx => Get_setDefaults_file _ rfl key x (fileValue_of_lookup _ key x hx),
    fun conv => ?_⟩
  unfold start init
  rw [hl]
  exact ⟨_, _, rfl⟩

theorem sample_fallback_loads_witness :
    production sampleFs SupportedExts = none ∧
    ∃ v : Viper, loadConfig sampleFs SupportedExts viperNew = Outcome.done v ∧
      v.Get "client.network" = some (Value.str "MAINNET") := by
  refine ⟨by decide!, ?_⟩
  obtain ⟨v, hv, -, -, -, hget, -, -⟩ := sample_fallback_loads sampleFs SupportedExts
    [("server", Value.map [("address", Value.str "127.0.0.1")]),
      ("client", Value.map [("network", Value.str "MAINNET")])]
    (by decide!) (by decide!)
  exact ⟨v, hv, hget "client.network" (Value.str "MAINNET") (by decide!)⟩

/-- C9, as the code has it: there are 37 recognized keys; whenever a
configuration file loads (the production one, or else the sample), `loadConfig`
returns, and for each recognized key: when the loaded file does not set the key
and gives no parent of the key a value other than a map, a read gives the default
registered in `loadConfig`; when the file sets the key, a read gives the value of
the file; when the file does not set the key and gives a parent of it a value
other than a map, a read gives nothing.  So a read gives a value whenever no
parent of the key is shadowed in the file. -/
theorem recognized_keys_resolve (fs : FileSystem) (exts : List String) (m : ConfigMap)
    (h : production fs exts = some m ∨ (production fs exts = none ∧ sample fs exts = some m)) :
    documentedDefaults.length = 37 ∧
    ∃ v : Viper, loadConfig fs exts viperNew = Outcome.done v ∧
      ∀ kd ∈ documentedDefaults,
        (fileValue m kd.1 = none → shadowedParent m kd.1 = "" → v.Get kd.1 = some kd.2) ∧
        (∀ x : Value, fileValue m kd.1 = some x → v.Get kd.1 = some x) ∧
        (fileValue m kd.1 = none → shadowedParent m kd.1 ≠ "" → v.Get kd.1 = none) ∧
        (shadowedParent m kd.1 = "" → (v.Get kd.1).isSome = true) := by
  obtain ⟨w, hl, hc, hd⟩ := loadConfig_done fs exts m h
  refine ⟨rfl, _, hl, fun kd hk => ?_⟩
  have hnone : fileValue m kd.1 = none → shadowedParent m kd.1 = "" →
      (setDefaults w).Get kd.1 = some kd.2 :=
    fun hn hs => Get_setDefaults_default w hd kd hk (by rw [hc]; exact hn) (by rw [hc]; exact hs)
  have hsome : ∀ x : Value, fileValue m kd.1 = some x → (setDefaults w).Get kd.1 = some x :=
    fun x hx => Get_setDefaults_file w hd kd.1 x (by rw [hc]; exact hx)
  have hshadow : fileValue m kd.1 = none → shadowedParent m kd.1 ≠ "" →
      (setDefaults w).Get kd.1 = none :=
    fun hn hs => Get_setDefaults_shadowed w hd kd hk (by rw [hc]; exact hn) (by rw [hc]; exact hs)
  refine ⟨hnone, hsome, hshadow, fun hs => ?_⟩
  cases hm : fileValue m kd.1 with
  | none => rw [hnone hm hs]; rfl
  | some x => rw [hsome x hm]; rfl

theorem recognized_keys_resolve_witness :
    ∃ v : Viper, loadConfig productionFs SupportedExts viperNew = Outcome.done v ∧
      v.Get "voters.fidelityLimit" = some (Value.int 12) ∧
      v.Get "voters.fidelity" = some (Value.bool true) ∧
      v.Get "voters.deductTxFees" = some (Value.bool true) ∧
      v.Get "client.network" = some (Value.str "DEVNET") ∧
      v.Get "server.dbfilename" = some (Value.str "payment.db") ∧
      v.Get "web.frontend" = some (Value.bool false) := by
  obtain ⟨-, v, hv, hk⟩ := recognized_keys_resolve productionFs SupportedExts
    [("voters", Value.map [("fidelitylimit", Value.int 12)]),
      ("server", Value.map [("port", Value.int 8080)])]
    (Or.inl (by decide!))
  exact ⟨v, hv,
    (hk ("voters.fidelityLimit", Value.int 24) (by decide!)).2.1 (Value.int 12) (by decide!),
    (hk ("voters.fidelity", Value.bool true) (by decide!)).1 (by decide!) (by decide!),
    (hk ("voters.deductTxFees", Value.bool true) (by decide!)).1 (by decide!) (by decide!),
    (hk ("client.network", Value.str "DEVNET") (by decide!)).1 (by decide!) (by decide!),
    (hk ("server.dbfilename", Value.str "payment.db") (by decide!)).1 (by decide!) (by decide!),
    (hk ("web.frontend", Value.bool false) (by decide!)).1 (by decide!) (by decide!)⟩

/-- C9 as stated fails: the production file `server: hello` loads and does not
set the recognized key `server.port`, whose default is 54000, yet a read of
`server.port` after `loadConfig` gives nothing, neither the default nor any
other value. -/
theorem shadowed_key_reads_nothing :
    production shadowFs SupportedExts = some [("server", Value.str "hello")] ∧
    fileValue [("server", Value.str "hello")] "server.port" = none ∧
    ("server.port", Value.int 54000) ∈ documentedDefaults ∧
    (loadConfig shadowFs SupportedExts viperNew).state.map (fun v => v.Get "server.port") =
      some none := by
  decide!

/-- C10, as the code has it: whenever a configuration file loads, the process
reaches `router.Run` with an address `host:port`.  The host is the string the
loaded file holds for `server.address`; the default `0.0.0.0` when the file does
not set it and does not shadow its parent; empty when the parent is shadowed.
The port is the integer the file holds for `server.port`, converted to a Go int
(unchanged inside the signed 64-bit range, wrapped outside) and written in
decimal; a float64 of the file truncated toward zero; the default `54000` when
the file does not set it and does not shadow its parent; `0` when the parent is
shadowed.  So a file that sets neither key and does not shadow `server` gives
`0.0.0.0:54000`. -/
theorem listener_address (fs : FileSystem) (exts : List String) (conv : Conv) (m : ConfigMap)
    (h : production fs exts = some m ∨ (production fs exts = none ∧ sample fs exts = some m)) :
    ∃ (host port : String) (router : Engine) (v : Viper),
      start fs exts conv = Process.listening (host ++ ":" ++ port) router v ∧
      (∀ a : String, fileValue m "server.address" = some (Value.str a) → host = a) ∧
      (fileValue m "server.address" = none → shadowedParent m "server.address" = "" →
        host = "0.0.0.0") ∧
      (fileValue m "server.address" = none → shadowedParent m "server.address" ≠ "" →
        host = "") ∧
      (∀ p : Int, fileValue m "server.port" = some (Value.int p) → port = Itoa (toGoInt p)) ∧
      (∀ p : Int, fileValue m "server.port" = some (Value.int p) → -(2 ^ 63) ≤ p → p < 2 ^ 63 →
        port = Itoa p) ∧
      (∀ (bits : Nat) (n : Int), fileValue m "server.port" = some (Value.float bits) →
        float64Trunc bits = some n → port = Itoa n) ∧
      (fileValue m "server.port" = none → shadowedParent m "server.port" = "" →
        port = "54000") ∧
      (fileValue m "server.port" = none → shadowedParent m "server.port" ≠ "" → port = "0") ∧
      (fileValue m "server.address" = none → fileValue m "server.port" = none →
        shadowedParent m "server.port" = "" → host ++ ":" ++ port = "0.0.0.0:54000") := by
  obtain ⟨w, hl, hc, hd⟩ := loadConfig_done fs exts m h
  have hst : start fs exts conv = main conv (setDefaults w) := by
    unfold start init
    rw [hl]
  have hka : ("server.address", Value.str "0.0.0.0") ∈ documentedDefaults := by decide!
  have hkp : ("server.port", Value.int 54000) ∈ documentedDefaults := by decide!
  have hfile : ∀ (key : String) (x : Value), fileValue m key = some x →
      (setDefaults w).Get key = some x :=
    fun key x hx => Get_setDefaults_file w hd key x (by rw [hc]; exact hx)
  have ha0 : fileValue m "server.address" = none → shadowedParent m "server.address" = "" →
      ToString conv ((setDefaults w).Get "server.address") = "0.0.0.0" := by
    intro hn hs
    rw [Get_setDefaults_default w hd _ hka (by rw [hc]; exact hn) (by rw [hc]; exact hs)]
    rfl
  have hp0 : fileValue m "server.port" = none → shadowedParent m "server.port" = "" →
      Itoa (ToInt conv ((setDefaults w).Get "server.port")) = "54000" := by
    intro hn hs
    rw [Get_setDefaults_default w hd _ hkp (by rw [hc]; exact hn) (by rw [hc]; exact hs)]
    show Itoa (toGoInt 54000) = "54000"
    decide!
  refine ⟨ToString conv ((setDefaults w).Get "server.address"),
    Itoa (ToInt conv ((setDefaults w).Get "server.port")), _, setDefaults w, hst,
    ?_, ha0, ?_, ?_, ?_, ?_, hp0, ?_, ?_⟩
  · intro a ha
    rw [hfile _ _ ha]
    rfl
  · intro hn hs
    rw [Get_setDefaults_shadowed w hd _ hka (by rw [hc]; exact hn) (by rw [hc]; exact hs)]
    rfl
  · intro p hp
    rw [hfile _ _ hp]
    rfl
  · intro p hp h1 h2
    rw [hfile _ _ hp]
    show Itoa (toGoInt p) = Itoa p
    rw [toGoInt_of_range p h1 h2]
  · intro bits n hp hn
    rw [hfile _ _ hp]
    show Itoa ((float64Trunc bits).getD (conv.floatOutOfRange bits)) = Itoa n
    rw [hn]
    rfl
  · intro hn hs
    rw [Get_setDefaults_shadowed w hd _ hkp (by rw [hc]; exact hn) (by rw [hc]; exact hs)]
    show Itoa 0 = "0"
    decide!
  · intro hna hnp hs
    rw [ha0 hna (by rw [shadowedParent_server]; exact hs), hp0 hnp hs]
    decide!

theorem listener_address_witness :
    ∃ (router : Engine) (v : Viper),
      start sampleFs SupportedExts exampleConv = Process.listening "127.0.0.1:54000" router v := by
  obtain ⟨host, port, router, v, hst, ha, -, -, -, -, -, hp, -, -⟩ :=
    listener_address sampleFs SupportedExts exampleConv
      [("server", Value.map [("address", Value.str "127.0.0.1")]),
        ("client", Value.map [("network", Value.str "MAINNET")])]
      (Or.inr ⟨by decide!, by decide!⟩)
  rw [ha "127.0.0.1" (by decide!), hp (by decide!) (by decide!)] at hst
  exact ⟨router, v, hst⟩

/-- C10 as stated fails twice.  The production file `server: hello` loads and
sets neither `server.address` nor `server.port`, yet the address passed to
`router.Run` is `:0` and not `0.0.0.0:54000`.  The production file that sets
`server.port` to 18446744073709551615 loads, yet the address is `0.0.0.0:-1`,
which is not that port in decimal. -/
theorem listener_address_not_as_stated :
    production shadowFs SupportedExts = some [("server", Value.str "hello")] ∧
    fileValue [("server", Value.str "hello")] "server.address" = none ∧
    fileValue [("server", Value.str "hello")] "server.port" = none ∧
    (start shadowFs SupportedExts exampleConv).addr = some ":0" ∧
    production bigPortFs SupportedExts =
      some [("server", Value.map [("port", Value.int 18446744073709551615)])] ∧
    fileValue [("server", Value.map [("port", Value.int 18446744073709551615)])] "server.port" =
      some (Value.int 18446744073709551615) ∧
    (start bigPortFs SupportedExts exampleConv).addr = some "0.0.0.0:-1" := by
  decide!

end ArkGoServer
